import Mathlib

/-!
# bob: sequential video reading, and four smaller components

A shallow embedding of `bob::io::VideoReader` and of its nested
`const_iterator` (`io/cxx/VideoReader.cc`), followed by theorems about
opening, bulk loading, single-frame reading, skipping, copying, resetting and
iterator equality; then the element-type names of `core/src/array_type.cc`,
the input check of `sp/src/spFFT_oourafft.cc`, the code computed by
`bob/ip/LBP16R.h` and the cropping functions of `ip/ip/crop.h`.

Conventions of the embedding

* `size_t` values are natural numbers; every increment of a `size_t` is taken
  modulo `SIZE_MAX + 1`, with `SIZE_MAX` the 64-bit
  `std::numeric_limits<size_t>::max()`; a `uint16_t` keeps the low 16 bits.
* A C++ call either returns a value or throws: `Outcome`.
* Objects mutated in place are passed in and handed back (explicit state).
* The caller's memory is a map from byte addresses to bytes.
* A `size_t` stored in an `int` keeps its low 32 bits, read as a two's
  complement number; the elements of a blitz array are addressed with these
  signed strides.
* The FFmpeg helpers of `bob/io/VideoUtilities.h` are not among the sources.
  The container at `m_filepath` is a value `VideoFile` that fixes, for the
  i-th demux call made on one format context, what that call does.
* A `double` is the rational number it denotes; the rounding of an exact
  result to a `double` is a parameter `fl`.
* Undefined behaviour (a null dereference, a division by zero, a signed
  overflow, an index outside an array) is `none`.
-/

namespace bob.io

/-! ## Element types and array descriptors (`bob/core/array.h`) -/

/-- Enumeration `bob::core::array::ElementType`, as listed by the `switch`
statements of `core/src/array_type.cc`. -/
inductive ElementType
  | t_unknown
  | t_bool
  | t_int8
  | t_int16
  | t_int32
  | t_int64
  | t_uint8
  | t_uint16
  | t_uint32
  | t_uint64
  | t_float32
  | t_float64
  | t_float128
  | t_complex64
  | t_complex128
  | t_complex256
  deriving DecidableEq, Repr

/-- Function `getElementSize` of `core/src/array_type.cc`: the `sizeof` of the
C++ type on an LP64 platform; `none` is the `throw Exception()` of the default
branch. -/
def getElementSize : ElementType → Option Nat
  | .t_bool => some 1
  | .t_int8 => some 1
  | .t_int16 => some 2
  | .t_int32 => some 4
  | .t_int64 => some 8
  | .t_uint8 => some 1
  | .t_uint16 => some 2
  | .t_uint32 => some 4
  | .t_uint64 => some 8
  | .t_float32 => some 4
  | .t_float64 => some 8
  | .t_float128 => some 16
  | .t_complex64 => some 8
  | .t_complex128 => some 16
  | .t_complex256 => some 32
  | .t_unknown => none

/-- Structure `bob::core::array::typeinfo`: element type, rank, and the
per-axis shape and stride arrays (read with default 0 past their end). -/
structure typeinfo where
  dtype : ElementType
  nd : Nat
  shape : List Nat
  stride : List Nat
  deriving DecidableEq, Repr

/-- Modelled from the spec: `typeinfo::is_compatible` is declared in
`bob/core/array.h`, which is not among the sources. "true iff element type,
rank, and every axis's shape match"; the strides are not compared. -/
def typeinfo.is_compatible (required actual : typeinfo) : Bool :=
  decide (required.dtype = actual.dtype) && decide (required.nd = actual.nd) &&
    (List.range required.nd).all
      (fun i => decide (required.shape.getD i 0 = actual.shape.getD i 0))

/-- Modelled from the spec: `typeinfo::buffer_size` is declared in
`bob/core/array.h`, which is not among the sources. The byte size of one
buffer of this type: the number of elements times the element size ("a
frame-sized slice" of a byte buffer of shape (3, height, width)). -/
def typeinfo.buffer_size (t : typeinfo) : Nat :=
  ((List.range t.nd).map (fun i => t.shape.getD i 0)).prod * (getElementSize t.dtype).getD 0

/-- Interface `bob::core::array::interface`, as far as the reader uses it: the
descriptor returned by `type()` and the base address returned by `ptr()`. -/
structure interface where
  type : typeinfo
  ptr : Nat
  deriving DecidableEq, Repr

/-! ## Results of calls, memory -/

/-- The texts of the exceptions thrown in `VideoReader.cc`. -/
inductive Message
  /-- Text "input buffer (%s) does not conform to the video size specifications (%s)". -/
  | buffer_not_video_size
  /-- Text "input buffer (%s) does not conform to the video frame size specifications (%s)". -/
  | buffer_not_frame_size
  /-- Text "video iterator for file has already reached its end and was reset". -/
  | already_reached_end
  /-- Text "you are trying to read past the file end (next frame no. to be read
  would be %d) on file %s, which contains only %d frames". -/
  | read_past_file_end
  /-- Raised inside an FFmpeg helper called with `throw_on_error` set. -/
  | ffmpeg_failure
  deriving DecidableEq, Repr

/-- The C++ exceptions that leave the functions of `VideoReader.cc`. -/
inductive Exception
  | invalid_argument (what : Message)
  | runtime_error (what : Message)
  deriving DecidableEq, Repr

/-- How a C++ call ends: it returns a value or it throws. -/
inductive Outcome (α : Type)
  | returned (value : α)
  | raised (e : Exception)
  deriving DecidableEq, Repr

/-- Byte-addressed memory holding the caller's buffers. -/
abbrev Memory := Nat → Nat

/-- One byte store. -/
def Memory.write (mem : Memory) (addr value : Nat) : Memory :=
  fun a => if a = addr then value else mem a

/-! ## The container file and the decoder session -/

/-- Result of one demux-and-decode step (spec, DecoderSession). -/
inductive DecodeOutcome
  | Ok
  | EndOfStream
  | Error
  deriving DecidableEq, Repr

/-- The container stored at `m_filepath`, as one decoder session sees it:
`outcome i` is what the i-th demux call (counted from 0) on a freshly opened
format context does, and `pixels i` is the packed RGB24 picture
(height x width x 3, row-major) that the call leaves in the scratch array when
it succeeds. -/
structure VideoFile where
  stream_index : Int
  width : Nat
  height : Nat
  outcome : Nat → DecodeOutcome
  pixels : Nat → List Nat

/-- A live `AVFormatContext`: the number of demux calls made on it so far. -/
structure AVFormatContext where
  calls : Nat
  deriving DecidableEq, Repr

/-- A live `AVCodecContext`: the picture size of the stream. -/
structure AVCodecContext where
  width : Nat
  height : Nat
  deriving DecidableEq, Repr

/-- The scratch array `blitz::Array<uint8_t,3>` of extent (height, width, 3),
stored row-major. -/
structure RGBArray where
  height : Nat
  width : Nat
  data : List Nat
  deriving DecidableEq, Repr

/-- Modelled from the spec: the demux step shared by `ffmpeg::read_video_frame`
and `ffmpeg::skip_video_frame` (`bob/io/VideoUtilities.h`, not among the
sources). The call made on a context that has served `calls` calls yields
`file.outcome calls` and leaves the context one call further; a released
(null) context delivers nothing, which is an `Error`. -/
def demux (file : VideoFile) (ctx : Option AVFormatContext) :
    DecodeOutcome × Option AVFormatContext :=
  match ctx with
  | none => (DecodeOutcome.Error, none)
  | some c => (file.outcome c.calls, some { calls := c.calls + 1 })

/-- Modelled from the spec: `ffmpeg::read_video_frame`
(`bob/io/VideoUtilities.h`, not among the sources), the boolean-or-exception
form of `decodeNext`. On `Ok` it returns true and the scratch array holds the
decoded picture; on `EndOfStream` or `Error` it throws `std::runtime_error` when
`throw_on_error` is set and returns false otherwise, leaving the scratch array
as it was. -/
def read_video_frame (file : VideoFile) (ctx : Option AVFormatContext)
    (rgb : RGBArray) (throw_on_error : Bool) :
    Outcome Bool × Option AVFormatContext × RGBArray :=
  match demux file ctx, ctx with
  | (DecodeOutcome.Ok, ctx1), some c =>
      (Outcome.returned true, ctx1, { rgb with data := file.pixels c.calls })
  | (_, ctx1), _ =>
      if throw_on_error then
        (Outcome.raised (Exception.runtime_error Message.ffmpeg_failure), ctx1, rgb)
      else (Outcome.returned false, ctx1, rgb)

/-- Modelled from the spec: `ffmpeg::skip_video_frame`
(`bob/io/VideoUtilities.h`, not among the sources), the boolean-or-exception
form of `skipNext`: as `read_video_frame`, without the colour conversion. -/
def skip_video_frame (file : VideoFile) (ctx : Option AVFormatContext)
    (throw_on_error : Bool) : Outcome Bool × Option AVFormatContext :=
  match demux file ctx with
  | (DecodeOutcome.Ok, ctx1) => (Outcome.returned true, ctx1)
  | (_, ctx1) =>
      if throw_on_error then
        (Outcome.raised (Exception.runtime_error Message.ffmpeg_failure), ctx1)
      else (Outcome.returned false, ctx1)

/-! ## The reader and its iterator (`io/cxx/VideoReader.cc`) -/

/-- The value of `std::numeric_limits<size_t>::max()`. -/
def SIZE_MAX : Nat := 18446744073709551615

/-- Class `bob::io::VideoReader`, as far as loading and iteration read it.
`addr` is the address of the object: iterators hold a pointer to their parent
and compare it by identity. -/
structure VideoReader where
  addr : Nat
  m_filepath : String
  m_height : Nat
  m_width : Nat
  m_nframes : Nat
  m_typeinfo_frame : typeinfo
  m_typeinfo_video : typeinfo
  deriving DecidableEq, Repr

/-- Accessor `VideoReader::numberOfFrames`. -/
def VideoReader.numberOfFrames (r : VideoReader) : Nat := r.m_nframes

/-- Class `bob::io::VideoReader::const_iterator`: the parent pointer (`none` is
the null pointer), the cursor, and the handles of the decoder session
(`none` or `false` is an empty handle). -/
structure const_iterator where
  m_parent : Option VideoReader
  m_current_frame : Nat
  m_format_context : Option AVFormatContext
  m_stream_index : Int
  m_codec : Bool
  m_codec_context : Option AVCodecContext
  m_swscaler : Bool
  m_context_frame : Bool
  m_rgb_array : RGBArray
  deriving DecidableEq, Repr

/-- What a member call of the iterator leaves behind: how the call ended, the
iterator, and the memory. -/
structure Call (α : Type) where
  result : Outcome α
  it : const_iterator
  mem : Memory

/-- Method `const_iterator::reset` (lines 232-240). -/
def const_iterator.reset (it : const_iterator) : const_iterator :=
  { it with
    m_context_frame := false
    m_swscaler := false
    m_codec_context := none
    m_codec := false
    m_format_context := none
    m_current_frame := SIZE_MAX
    m_parent := none }

/-- Method `const_iterator::init` (lines 206-230), with `m_parent` dereferenced
as `parent`; every FFmpeg constructor is taken to succeed on the file that the
reader has already opened once. -/
def const_iterator.init (file : VideoFile) (parent : VideoReader)
    (it : const_iterator) : const_iterator :=
  let it1 : const_iterator :=
    { it with
      m_format_context := some { calls := 0 }
      m_stream_index := file.stream_index
      m_codec := true
      m_codec_context := some { width := file.width, height := file.height }
      m_swscaler := true
      m_context_frame := true
      m_rgb_array :=
        { height := file.height, width := file.width,
          data := List.replicate (file.height * file.width * 3) 0 }
      m_current_frame := 0 }
  if it1.m_current_frame ≥ parent.numberOfFrames then it1.reset else it1

/-- Constructor `const_iterator::const_iterator()` (lines 179-183). -/
def const_iterator.default : const_iterator :=
  { m_parent := none
    m_current_frame := SIZE_MAX
    m_format_context := none
    m_stream_index := 0
    m_codec := false
    m_codec_context := none
    m_swscaler := false
    m_context_frame := false
    m_rgb_array := { height := 0, width := 0, data := [] } }

/-- Constructor `const_iterator::const_iterator(const VideoReader* parent)`
(lines 172-177). -/
def const_iterator.ofParent (file : VideoFile) (parent : VideoReader) : const_iterator :=
  const_iterator.init file parent
    { const_iterator.default with m_parent := some parent, m_current_frame := SIZE_MAX }

/-- Method `VideoReader::begin` (lines 164-166). -/
def VideoReader.begin (file : VideoFile) (r : VideoReader) : const_iterator :=
  const_iterator.ofParent file r

/-- Method `VideoReader::end` (lines 168-170). -/
def VideoReader.end_ (_r : VideoReader) : const_iterator :=
  const_iterator.default

/-- Comparison of two parent pointers: null with null, or the same object. -/
def same_parent (a b : Option VideoReader) : Bool :=
  decide (a.map VideoReader.addr = b.map VideoReader.addr)

/-- Method `const_iterator::operator==` (lines 338-340). -/
def const_iterator.operator_eq (this other : const_iterator) : Bool :=
  same_parent this.m_parent other.m_parent &&
    decide (this.m_current_frame = other.m_current_frame)

/-- Method `const_iterator::operator!=` (lines 342-344). -/
def const_iterator.operator_ne (this other : const_iterator) : Bool :=
  !(const_iterator.operator_eq this other)

/-- The conversion of a `size_t` to `int` made when an entry of the caller's
descriptor is stored in a `blitz::TinyVector<int,3>` (lines 290-291): the
value modulo 2^32, read as a two's complement number. Values up to
2147483647 are kept; 2147483648 becomes -2147483648. -/
def size_t_to_int (n : Nat) : Int :=
  if n % 4294967296 < 2147483648 then ((n % 4294967296 : Nat) : Int)
  else ((n % 4294967296 : Nat) : Int) - 4294967296

/-- One byte store through a pointer that was moved by a signed offset. No
byte of the memory has an address below 0: such a store changes nothing. -/
def Memory.write_at (mem : Memory) (addr : Int) (value : Nat) : Memory :=
  if 0 ≤ addr then mem.write addr.toNat value else mem

/-- Entry `i` of the `TinyVector<int,3> shape` of `read` (lines 287, 290). -/
def dst_shape (info : typeinfo) (i : Nat) : Int := size_t_to_int (info.shape.getD i 0)

/-- Entry `i` of the `TinyVector<int,3> stride` of `read` (lines 288, 291). -/
def dst_stride (info : typeinfo) (i : Nat) : Int := size_t_to_int (info.stride.getD i 0)

/-- The address of element (c, y, x) of the array `dst` of `read` (lines
292-293): the base address `data.ptr()` moved by the three indices times the
three `int` strides. The offset is a `ptrdiff_t` and is not reduced. -/
def dst_address (ptr : Nat) (info : typeinfo) (c y x : Nat) : Int :=
  (ptr : Int) + (c : Int) * dst_stride info 0 + (y : Int) * dst_stride info 1
    + (x : Int) * dst_stride info 2

/-- The blitz assignment `dst = m_rgb_array.transpose(2,0,1)` of `read`
(lines 287-295): `dst` views the memory at `ptr` with the extents and strides
of the destination descriptor as `int`s, and element (c, y, x) of `dst`
receives element (y, x, c) of the scratch array. An axis whose `int` extent is
not positive has no element. -/
def transpose_assign (mem : Memory) (ptr : Nat) (info : typeinfo) (rgb : RGBArray) :
    Memory :=
  (List.range (dst_shape info 0).toNat).foldl
    (fun m0 c =>
      (List.range (dst_shape info 1).toNat).foldl
        (fun m1 y =>
          (List.range (dst_shape info 2).toNat).foldl
            (fun m2 x =>
              m2.write_at (dst_address ptr info c y x)
                (rgb.data.getD ((y * rgb.width + x) * 3 + c) 0))
            m1)
        m0)
    mem

/-- Method `const_iterator::read(bob::core::array::interface&, bool)`
(lines 248-301). -/
def const_iterator.read (file : VideoFile) (it : const_iterator) (data : interface)
    (throw_on_error : Bool) (mem : Memory) : Call Bool :=
  match it.m_parent with
  | none =>
      { result := Outcome.raised (Exception.runtime_error Message.already_reached_end),
        it := it, mem := mem }
  | some parent =>
      if it.m_current_frame ≥ parent.numberOfFrames then
        if throw_on_error then
          { result := Outcome.raised (Exception.runtime_error Message.read_past_file_end),
            it := it, mem := mem }
        else
          { result := Outcome.returned false, it := it.reset, mem := mem }
      else
        let info := data.type
        if !(info.is_compatible parent.m_typeinfo_frame) then
          { result := Outcome.raised (Exception.invalid_argument Message.buffer_not_frame_size),
            it := it, mem := mem }
        else
          match read_video_frame file it.m_format_context it.m_rgb_array throw_on_error with
          | (Outcome.raised e, ctx1, rgb1) =>
              { result := Outcome.raised e,
                it := { it with m_format_context := ctx1, m_rgb_array := rgb1 },
                mem := mem }
          | (Outcome.returned true, ctx1, rgb1) =>
              { result := Outcome.returned true,
                it := { it with
                        m_format_context := ctx1
                        m_rgb_array := rgb1
                        m_current_frame := (it.m_current_frame + 1) % (SIZE_MAX + 1) },
                mem := transpose_assign mem data.ptr info rgb1 }
          | (Outcome.returned false, ctx1, rgb1) =>
              { result := Outcome.returned false,
                it := { it with m_format_context := ctx1, m_rgb_array := rgb1 },
                mem := mem }

/-- Method `const_iterator::operator++` (lines 307-331). -/
def const_iterator.operator_inc (file : VideoFile) (it : const_iterator) :
    Outcome Unit × const_iterator :=
  match it.m_parent with
  | none =>
      (Outcome.raised (Exception.runtime_error Message.already_reached_end), it)
  | some parent =>
      if it.m_current_frame ≥ parent.numberOfFrames then
        (Outcome.returned (), it.reset)
      else
        match skip_video_frame file it.m_format_context true with
        | (Outcome.returned true, ctx1) =>
            (Outcome.returned (),
              { it with
                m_format_context := ctx1
                m_current_frame := (it.m_current_frame + 1) % (SIZE_MAX + 1) })
        | (Outcome.returned false, ctx1) =>
            (Outcome.returned (), { it with m_format_context := ctx1 })
        | (Outcome.raised (Exception.runtime_error _), ctx1) =>
            (Outcome.returned (), { it with m_format_context := ctx1 }.reset)
        | (Outcome.raised e, ctx1) =>
            (Outcome.raised e, { it with m_format_context := ctx1 })

/-- Method `const_iterator::operator+=` (lines 333-336): `frames` increments;
an exception of one of them ends the loop. -/
def const_iterator.operator_add_assign (file : VideoFile) :
    Nat → const_iterator → Outcome Unit × const_iterator
  | 0, it => (Outcome.returned (), it)
  | frames + 1, it =>
      match const_iterator.operator_inc file it with
      | (Outcome.returned _, it1) => const_iterator.operator_add_assign file frames it1
      | (Outcome.raised e, it1) => (Outcome.raised e, it1)

/-- What `VideoReader::load` leaves behind: how it ended (`frames_read` when it
returned), the memory, and the number of `read` calls it made. -/
structure Loaded where
  result : Outcome Nat
  mem : Memory
  reads : Nat

/-- The `for` loop of `VideoReader::load` (lines 152-159); each unit of fuel
pays for one evaluation of the loop condition, and `none` means the fuel ran
out before the loop ended. -/
def load_loop (file : VideoFile) (r : VideoReader) (throw_on_error : Bool) :
    Nat → const_iterator → Nat → Nat → Memory → Nat → Option Loaded
  | 0, _, _, _, _, _ => none
  | fuel + 1, it, ptr, frames_read, mem, reads =>
      if const_iterator.operator_ne it r.end_ then
        let ref : interface := { type := r.m_typeinfo_frame, ptr := ptr }
        let c := const_iterator.read file it ref throw_on_error mem
        match c.result with
        | Outcome.raised e => some { result := Outcome.raised e, mem := c.mem, reads := reads + 1 }
        | Outcome.returned true =>
            load_loop file r throw_on_error fuel c.it (ptr + r.m_typeinfo_frame.buffer_size)
              ((frames_read + 1) % (SIZE_MAX + 1)) c.mem (reads + 1)
        | Outcome.returned false =>
            load_loop file r throw_on_error fuel c.it ptr frames_read c.mem (reads + 1)
      else
        some { result := Outcome.returned frames_read, mem := mem, reads := reads }

/-- Method `VideoReader::load(bob::core::array::interface&, bool)`
(lines 137-162). -/
def VideoReader.load (file : VideoFile) (r : VideoReader) (b : interface)
    (throw_on_error : Bool) (mem : Memory) (fuel : Nat) : Option Loaded :=
  if !(r.m_typeinfo_video.is_compatible b.type) then
    some { result := Outcome.raised (Exception.invalid_argument Message.buffer_not_video_size),
           mem := mem, reads := 0 }
  else
    load_loop file r throw_on_error fuel (r.begin file) b.ptr 0 mem 0

/-! ## Callers used in the statements -/

/-- A caller making `k` successive `read` calls into one buffer with one value
of `throw_on_error`: the outcomes in call order, then the iterator and the
memory after the last call. -/
def read_times (file : VideoFile) (data : interface) (throw_on_error : Bool) :
    Nat → const_iterator → Memory → List (Outcome Bool) × const_iterator × Memory
  | 0, it, mem => ([], it, mem)
  | k + 1, it, mem =>
      let c := const_iterator.read file it data throw_on_error mem
      let rest := read_times file data throw_on_error k c.it c.mem
      (c.result :: rest.1, rest.2)

/-! ## Worked instances: a one-pixel video -/

/-- Single-frame descriptor of a 1x1 video: (uint8, rank 3, shape [3, 1, 1]). -/
def frame_1x1 : typeinfo :=
  { dtype := ElementType.t_uint8, nd := 3, shape := [3, 1, 1], stride := [1, 1, 1] }

/-- Bulk descriptor of a 1x1 video of `n` frames: (uint8, rank 4, shape
[n, 3, 1, 1]). -/
def video_1x1 (n : Nat) : typeinfo :=
  { dtype := ElementType.t_uint8, nd := 4, shape := [n, 3, 1, 1], stride := [3, 1, 1, 1] }

/-- An opened reader over a 1x1 video of `n` frames. -/
def reader_1x1 (n : Nat) : VideoReader :=
  { addr := 4096, m_filepath := "clip.avi", m_height := 1, m_width := 1, m_nframes := n,
    m_typeinfo_frame := frame_1x1, m_typeinfo_video := video_1x1 n }

/-- A container whose every demux call succeeds; picture `i` is the pixel
(i, i + 100, i + 200). -/
def healthy_file : VideoFile :=
  { stream_index := 0, width := 1, height := 1,
    outcome := fun _ => DecodeOutcome.Ok,
    pixels := fun i => [i, i + 100, i + 200] }

/-- A container whose first demux call fails and whose later calls succeed. -/
def damaged_file : VideoFile :=
  { healthy_file with
    outcome := fun i => if i = 0 then DecodeOutcome.Error else DecodeOutcome.Ok }

/-- A caller buffer at address 1000 with the bulk shape of `n` 1x1 frames. -/
def bulk_buffer (n : Nat) : interface := { type := video_1x1 n, ptr := 1000 }

/-- A caller buffer at address 1000 with the shape of one 1x1 frame. -/
def frame_buffer : interface := { type := frame_1x1, ptr := 1000 }

/-- A caller buffer of the wrong element type (float64 in place of uint8). -/
def float_buffer : interface :=
  { type := { frame_1x1 with dtype := ElementType.t_float64 }, ptr := 1000 }

/-- Memory holding zero everywhere. -/
def zero_memory : Memory := fun _ => 0

/-- The iterator of the healthy one-frame 1x1 video after its only frame has
been read: it still has its parent and its cursor equals frame_count. -/
def iterator_after_last_frame : const_iterator :=
  (const_iterator.read healthy_file ((reader_1x1 1).begin healthy_file) frame_buffer true
    zero_memory).it

/-! ## Copies of an iterator -/

/-- Constructor `const_iterator::const_iterator(const const_iterator& other)`
(lines 185-192): a fresh session on the parent of `other`, then `+=` by the
cursor of `other`. `none` is the undefined behaviour of `init()` dereferencing
a null `m_parent`. -/
def const_iterator.copy (file : VideoFile) (other : const_iterator) :
    Option (Outcome Unit × const_iterator) :=
  match other.m_parent with
  | none => none
  | some parent =>
      some (const_iterator.operator_add_assign file other.m_current_frame
        (const_iterator.init file parent
          { const_iterator.default with
            m_parent := other.m_parent, m_current_frame := SIZE_MAX }))

/-- Method `const_iterator::operator=` (lines 198-204), for `other` an object
distinct from `this`: `reset()`, take the parent of `other`, `init()`, then
`+=` by the cursor of `other`. `none` is the undefined behaviour of `init()`
dereferencing a null `m_parent`. -/
def const_iterator.assign (file : VideoFile) (this other : const_iterator) :
    Option (Outcome Unit × const_iterator) :=
  let this1 := { this.reset with m_parent := other.m_parent }
  match this1.m_parent with
  | none => none
  | some parent =>
      some (const_iterator.operator_add_assign file other.m_current_frame
        (const_iterator.init file parent this1))

/-! ## Reachable iterator states -/

/-- The iterator states a caller can reach over reader `r`: `begin()`, then
any sequence of `read` calls (any buffer, either mode, whatever the call
returns or throws) and `operator++` calls. -/
inductive Reachable (file : VideoFile) (r : VideoReader) : const_iterator → Prop
  | begin : Reachable file r (r.begin file)
  | read (it : const_iterator) (data : interface) (throw_on_error : Bool) (mem : Memory) :
      Reachable file r it →
      Reachable file r (const_iterator.read file it data throw_on_error mem).it
  | advance (it : const_iterator) :
      Reachable file r it → Reachable file r (const_iterator.operator_inc file it).2

/-! ## Opening a reader -/

/-- The constant `AV_TIME_BASE` of FFmpeg: durations are in microseconds. -/
def AV_TIME_BASE : Nat := 1000000

/-- What the FFmpeg calls of `VideoReader::open` (lines 58-73) expose of the
container: `codec_ctxt->width`, `codec_ctxt->height`, `format_ctxt->duration`
(an `int64_t`), `nb_frames` of the video stream (an `int64_t`) and its
`r_frame_rate` (an `AVRational`, numerator over denominator). -/
structure ContainerInfo where
  width : Nat
  height : Nat
  duration : Int
  nb_frames : Int
  r_frame_rate_num : Int
  r_frame_rate_den : Int
  deriving DecidableEq, Repr

/-- Conversion of a signed integer to `size_t` or `uint64_t`: modulo
`SIZE_MAX + 1`. -/
def to_size_t (z : Int) : Nat := (z % ((SIZE_MAX : Int) + 1)).toNat

/-- The conversion `(int)` of a `double`: truncation toward zero; `none` is the
undefined behaviour of a value outside the range of a 32-bit `int`. A double
is the rational it denotes. -/
def double_to_int (x : ℚ) : Option Int :=
  let z : Int := if 0 ≤ x then ⌊x⌋ else ⌈x⌉
  if -2147483648 ≤ z ∧ z ≤ 2147483647 then some z else none

/-- The double `m_framerate * m_duration / AV_TIME_BASE` of line 89, with
`m_framerate = av_q2d(r_frame_rate)` of line 88. `fl` rounds the exact result
of an operation or conversion to a `double`. -/
def estimated_frames (info : ContainerInfo) (fl : ℚ → ℚ) : ℚ :=
  let m_duration : Nat := to_size_t info.duration
  let m_framerate : ℚ := fl ((info.r_frame_rate_num : ℚ) / (info.r_frame_rate_den : ℚ))
  fl (fl (m_framerate * fl (m_duration : ℚ)) / fl (AV_TIME_BASE : ℚ))

/-- Modelled from the spec: `typeinfo::update_strides` is declared in
`bob/core/array.h`, which is not among the sources. The descriptors that
`open` computes describe packed buffers: the stride of an axis is the product
of the extents of the axes after it. -/
def typeinfo.update_strides (t : typeinfo) : typeinfo :=
  { t with
    stride := (List.range t.nd).map
      (fun i => (((List.range t.nd).drop (i + 1)).map (fun j => t.shape.getD j 0)).prod) }

/-- Method `VideoReader::open` (lines 55-126) on the object at address `this`,
the FFmpeg calls having succeeded with `info`. The members are typed as in the
class declaration (`size_t m_nframes`, `uint64_t m_duration`,
`double m_framerate`); the names, `m_duration`, `m_framerate` and the
description string are computed but not kept here. `none` is undefined
behaviour: the unsigned division by a zero `m_duration` of line 84, a zero
denominator of `r_frame_rate`, or a double outside the range of `int` at line
89. -/
def VideoReader.open (this : Nat) (filename : String) (info : ContainerInfo)
    (fl : ℚ → ℚ) : Option VideoReader :=
  let m_width := info.width
  let m_height := info.height
  let m_duration := to_size_t info.duration
  let m_nframes0 := to_size_t info.nb_frames
  let m_nframes : Option Nat :=
    if m_nframes0 > 0 then
      if m_duration = 0 then none else some m_nframes0
    else
      if info.r_frame_rate_den = 0 then none
      else (double_to_int (estimated_frames info fl)).map to_size_t
  m_nframes.map (fun n =>
    { addr := this
      m_filepath := filename
      m_height := m_height
      m_width := m_width
      m_nframes := n
      m_typeinfo_frame :=
        typeinfo.update_strides
          { dtype := ElementType.t_uint8, nd := 3, shape := [3, m_height, m_width],
            stride := [] }
      m_typeinfo_video :=
        typeinfo.update_strides
          { dtype := ElementType.t_uint8, nd := 4, shape := [n, 3, m_height, m_width],
            stride := [] } })

/-- Accessor `VideoReader::height`. -/
def VideoReader.height (r : VideoReader) : Nat := r.m_height

/-- Accessor `VideoReader::width`. -/
def VideoReader.width (r : VideoReader) : Nat := r.m_width

/-- The frame count the spec describes for a container that declares none:
"round(framerate × duration)", the duration in seconds. -/
def spec_estimated_frames (info : ContainerInfo) : Int :=
  round (((info.r_frame_rate_num : ℚ) / (info.r_frame_rate_den : ℚ)) *
    ((info.duration : ℚ) / 1000000))

/-! ## Worked instances: more one-pixel videos -/

/-- A 1x1 container that declares `n` frames over `n` seconds at 1 frame per
second. -/
def info_1x1 (n : Nat) : ContainerInfo :=
  { width := 1, height := 1, duration := (n : Int) * 1000000, nb_frames := n,
    r_frame_rate_num := 1, r_frame_rate_den := 1 }

/-- A 1x1 container that declares no frame count: 1 frame per second over
1.75 seconds. -/
def info_undeclared : ContainerInfo :=
  { width := 1, height := 1, duration := 1750000, nb_frames := 0,
    r_frame_rate_num := 1, r_frame_rate_den := 1 }

/-- A second reader object over the same one-pixel video, at another
address. -/
def other_reader_1x1 (n : Nat) : VideoReader := { reader_1x1 n with addr := 8192 }

/-- A frame buffer whose three strides are zero: every element lies at the
base address. -/
def overlapping_buffer : interface :=
  { type := { frame_1x1 with stride := [0, 0, 0] }, ptr := 1000 }

/-- A bulk buffer for one 1x1 frame that leaves one padding byte after each
channel: strides (6, 2, 1, 1). -/
def padded_bulk_buffer : interface :=
  { type := { video_1x1 1 with stride := [6, 2, 1, 1] }, ptr := 1000 }

/-! ## The order of the releases in `reset` -/

/-- The handles of the decoder session, one per member that `reset` empties. -/
inductive Handle
  | context_frame
  | swscaler
  | codec_context
  | codec
  | format_context
  deriving DecidableEq, Repr

/-- One statement of `const_iterator::reset` (lines 233-237): the handle is
emptied; emptying an empty handle changes nothing. -/
def const_iterator.release (it : const_iterator) : Handle → const_iterator
  | Handle.context_frame => { it with m_context_frame := false }
  | Handle.swscaler => { it with m_swscaler := false }
  | Handle.codec_context => { it with m_codec_context := none }
  | Handle.codec => { it with m_codec := false }
  | Handle.format_context => { it with m_format_context := none }

/-- The releases of `const_iterator::reset` in statement order (lines
233-237). -/
def reset_releases : List Handle :=
  [Handle.context_frame, Handle.swscaler, Handle.codec_context, Handle.codec,
    Handle.format_context]

/-- Method `const_iterator::reset` statement by statement (lines 232-240): the
releases in order, then the cursor, then the parent. -/
def const_iterator.reset_in_order (it : const_iterator) : const_iterator :=
  { reset_releases.foldl const_iterator.release it with
    m_current_frame := SIZE_MAX
    m_parent := none }

/-! ## States reachable through the whole interface -/

/-- The iterator states a caller can build over reader `r` with every
constructor and member: the default constructor (`end()`), the constructor
from the parent (`begin()`), copies and assignments whose behaviour is
defined, `read`, `operator++`, `operator+=` and `reset`. -/
inductive ReachableAll (file : VideoFile) (r : VideoReader) : const_iterator → Prop
  | default : ReachableAll file r const_iterator.default
  | ofParent : ReachableAll file r (const_iterator.ofParent file r)
  | copy (other : const_iterator) (res : Outcome Unit × const_iterator) :
      ReachableAll file r other → const_iterator.copy file other = some res →
      ReachableAll file r res.2
  | assign (this other : const_iterator) (res : Outcome Unit × const_iterator) :
      ReachableAll file r this → ReachableAll file r other →
      const_iterator.assign file this other = some res → ReachableAll file r res.2
  | read (it : const_iterator) (data : interface) (throw_on_error : Bool) (mem : Memory) :
      ReachableAll file r it →
      ReachableAll file r (const_iterator.read file it data throw_on_error mem).it
  | advance (it : const_iterator) :
      ReachableAll file r it → ReachableAll file r (const_iterator.operator_inc file it).2
  | add_assign (frames : Nat) (it : const_iterator) :
      ReachableAll file r it →
      ReachableAll file r (const_iterator.operator_add_assign file frames it).2
  | reset (it : const_iterator) : ReachableAll file r it → ReachableAll file r it.reset

/-! ## Worked instances: a stream that cannot be decoded -/

/-- A 1x1 container whose every demux call fails. -/
def broken_file : VideoFile :=
  { healthy_file with outcome := fun _ => DecodeOutcome.Error }

/-! ## The `read` calls of a load -/

/-- One `read` call of the loop of `VideoReader::load`, as it is entered: the
iterator `it`, the frame view `ref` built at line 153, and the memory. -/
structure ReadCall where
  it : const_iterator
  ref : interface
  mem : Memory

/-- What the `read` call of line 154 leaves behind. -/
def ReadCall.done (file : VideoFile) (throw_on_error : Bool) (e : ReadCall) : Call Bool :=
  const_iterator.read file e.it e.ref throw_on_error e.mem

end bob.io

namespace Torch.core.array

/-! ## Names of the element types (`core/src/array_type.cc`) -/

/-- Constant `t_bool_string` (line 13). -/
def t_bool_string : String := "bool"
/-- Constant `t_int8_string` (line 14). -/
def t_int8_string : String := "int8"
/-- Constant `t_int16_string` (line 15). -/
def t_int16_string : String := "int16"
/-- Constant `t_int32_string` (line 16). -/
def t_int32_string : String := "int32"
/-- Constant `t_int64_string` (line 17). -/
def t_int64_string : String := "int64"
/-- Constant `t_uint8_string` (line 18). -/
def t_uint8_string : String := "uint8"
/-- Constant `t_uint16_string` (line 19). -/
def t_uint16_string : String := "uint16"
/-- Constant `t_uint32_string` (line 20). -/
def t_uint32_string : String := "uint32"
/-- Constant `t_uint64_string` (line 21). -/
def t_uint64_string : String := "uint64"
/-- Constant `t_float32_string` (line 22). -/
def t_float32_string : String := "float32"
/-- Constant `t_float64_string` (line 23). -/
def t_float64_string : String := "float64"
/-- Constant `t_float128_string` (line 24). -/
def t_float128_string : String := "float128"
/-- Constant `t_complex64_string` (line 25). -/
def t_complex64_string : String := "complex64"
/-- Constant `t_complex128_string` (line 26). -/
def t_complex128_string : String := "complex128"
/-- Constant `t_complex256_string` (line 27). -/
def t_complex256_string : String := "complex256"
/-- Constant `t_unknown_string` (line 28). -/
def t_unknown_string : String := "unknown"

/-- Function `stringize` (lines 67-102); the `default` branch takes every value
that is not one of the fifteen cases. -/
def stringize : bob.io.ElementType → String
  | .t_bool => t_bool_string
  | .t_int8 => t_int8_string
  | .t_int16 => t_int16_string
  | .t_int32 => t_int32_string
  | .t_int64 => t_int64_string
  | .t_uint8 => t_uint8_string
  | .t_uint16 => t_uint16_string
  | .t_uint32 => t_uint32_string
  | .t_uint64 => t_uint64_string
  | .t_float32 => t_float32_string
  | .t_float64 => t_float64_string
  | .t_float128 => t_float128_string
  | .t_complex64 => t_complex64_string
  | .t_complex128 => t_complex128_string
  | .t_complex256 => t_complex256_string
  | _ => t_unknown_string

/-- Function `unstringize` (lines 104-122). -/
def unstringize (s : String) : bob.io.ElementType :=
  if s = t_bool_string then .t_bool
  else if s = t_int8_string then .t_int8
  else if s = t_int16_string then .t_int16
  else if s = t_int32_string then .t_int32
  else if s = t_int64_string then .t_int64
  else if s = t_uint8_string then .t_uint8
  else if s = t_uint16_string then .t_uint16
  else if s = t_uint32_string then .t_uint32
  else if s = t_uint64_string then .t_uint64
  else if s = t_float32_string then .t_float32
  else if s = t_float64_string then .t_float64
  else if s = t_float128_string then .t_float128
  else if s = t_complex64_string then .t_complex64
  else if s = t_complex128_string then .t_complex128
  else if s = t_complex256_string then .t_complex256
  else .t_unknown

/-- The fifteen names of the known element types, in the order of the
constants. -/
def known_names : List String :=
  [t_bool_string, t_int8_string, t_int16_string, t_int32_string, t_int64_string,
    t_uint8_string, t_uint16_string, t_uint32_string, t_uint64_string, t_float32_string,
    t_float64_string, t_float128_string, t_complex64_string, t_complex128_string,
    t_complex256_string]

end Torch.core.array

namespace Torch

/-! ## Input check of the FFT (`sp/src/spFFT_oourafft.cc`) -/

/-- The storage types of a `Torch::Tensor` (`Tensor::Type`). -/
inductive TensorType
  | Char
  | Short
  | Int
  | Long
  | Float
  | Double
  deriving DecidableEq, Repr

/-- A `Torch::Tensor` as far as `checkInput` looks at it: `getDatatype()`,
`nDimension()` and the extents `size(i)` (0 past the last dimension). -/
structure Tensor where
  datatype : TensorType
  nDimension : Nat
  sizes : List Nat
  deriving DecidableEq, Repr

/-- Accessor `Tensor::size`. -/
def Tensor.size (input : Tensor) (i : Nat) : Nat := input.sizes.getD i 0

/-- The block `if (input.nDimension() == 1) { ... }` of `checkInput` (lines
43-62): `some b` is `return b`, `none` is falling out of the block. -/
def spFFT_oourafft.check_1d (nexthigher : Nat → Nat) (inverse : Bool) (input : Tensor) :
    Option Bool :=
  if input.nDimension = 1 then
    if inverse then some false
    else if input.size 0 ≠ nexthigher (input.size 0) then some false
    else none
  else none

/-- The block `if (input.nDimension() == 2) { ... }` of `checkInput` (lines
64-97). -/
def spFFT_oourafft.check_2d (nexthigher : Nat → Nat) (inverse : Bool) (input : Tensor) :
    Option Bool :=
  if input.nDimension = 2 then
    if inverse then
      if input.size 0 ≠ nexthigher (input.size 0) then some false else none
    else
      if input.size 0 ≠ nexthigher (input.size 0) then some false
      else if input.size 1 ≠ nexthigher (input.size 1) then some false
      else none
  else none

/-- The block `if (input.nDimension() == 3) { ... }` of `checkInput` (lines
99-129). -/
def spFFT_oourafft.check_3d (nexthigher : Nat → Nat) (inverse : Bool) (input : Tensor) :
    Option Bool :=
  if input.nDimension = 3 then
    if inverse = false then some false
    else if input.size 2 ≠ 2 then some false
    else if input.size 0 ≠ nexthigher (input.size 0) then some false
    else if input.size 1 ≠ nexthigher (input.size 1) then some false
    else none
  else none

/-- Method `spFFT_oourafft::checkInput` (lines 29-133) of an object whose
member `inverse` is given; `nexthigher` of `oourafft/ooura.h`, which is not
among the sources, is a parameter. The three blocks are tried in turn, and
when none of them returns the function ends with `return true`. -/
def spFFT_oourafft.checkInput (nexthigher : Nat → Nat) (inverse : Bool) (input : Tensor) :
    Bool :=
  if input.datatype ≠ TensorType.Float then false
  else
    match spFFT_oourafft.check_1d nexthigher inverse input with
    | some b => b
    | none =>
      match spFFT_oourafft.check_2d nexthigher inverse input with
      | some b => b
      | none =>
        match spFFT_oourafft.check_3d nexthigher inverse input with
        | some b => b
        | none => true

/-- A Float tensor with four dimensions, 2 x 2 x 2 x 2. -/
def tensor_4d : Tensor :=
  { datatype := TensorType.Float, nDimension := 4, sizes := [2, 2, 2, 2] }

end Torch

namespace bob.ip

/-! ## The code of `LBP16R` before the look-up table (`bob/ip/LBP16R.h`) -/

/-- The statements `lbp = lbp << 1; if (...) ++lbp;` on the `uint16_t`
accumulator: both assignments keep the low 16 bits. -/
def shift_in (lbp : Nat) (bit : Bool) : Nat :=
  let shifted := (lbp * 2) % 65536
  if bit then (shifted + 1) % 65536 else shifted

/-- Lines 293-309 of `LBP16R::processNoCheck` for `m_eLBP_type == 0`: the
value of `lbp` that indexes the look-up table at line 339. `tab` holds the 16
interpolated neighbours, `center` the centre pixel and `cmp_point` the value
they are compared with, all doubles; only their order is used, so any linearly
ordered type stands for them. -/
def LBP16R.processNoCheck_lbp {α : Type} [LinearOrder α] (tab : Nat → α)
    (center cmp_point : α) (m_add_average_bit m_rotation_invariant m_uniform : Bool) : Nat :=
  let lbp := (List.range 16).foldl (fun lbp i => shift_in lbp (decide (tab i ≥ cmp_point))) 0
  if m_add_average_bit && !m_rotation_invariant && !m_uniform then
    shift_in lbp (decide (center > cmp_point))
  else lbp

/-- The code the claim describes: the sum over i < 16 of
[tab[i] >= cmp_point] * 2^(15-i). -/
def spec_lbp {α : Type} [LinearOrder α] (tab : Nat → α) (cmp_point : α) : Nat :=
  ((List.range 16).map (fun i => if tab i ≥ cmp_point then 2 ^ (15 - i) else 0)).sum

/-- A neighbourhood whose neighbour 0 reaches the comparison value 1 and
whose other neighbours are 0. -/
def neighbours_first_set : Nat → Nat := fun i => if i = 0 then 1 else 0

/-- A neighbourhood whose 16 neighbours are all 0. -/
def neighbours_none_set : Nat → Nat := fun _ => 0

end bob.ip

namespace Torch.ip

/-! ## Cropping (`ip/ip/crop.h`) -/

/-- The largest value of an `int`. -/
def INT_MAX : Int := 2147483647

/-- The smallest value of an `int`. -/
def INT_MIN : Int := -2147483648

/-- Addition of two `int`; `none` is the undefined behaviour of a signed
overflow. -/
def int_add (a b : Int) : Option Int :=
  if INT_MIN ≤ a + b ∧ a + b ≤ INT_MAX then some (a + b) else none

/-- A `blitz::Array<T,2>` that is read: the lower bounds and extents of its two
axes, and its elements by index. -/
structure Array2D where
  lbound0 : Int
  lbound1 : Int
  extent0 : Int
  extent1 : Int
  data : Int → Int → Int

/-- The element access `src(i, j)`; blitz does not check the indices, and
`none` is the undefined behaviour of an index outside the array. -/
def Array2D.get (src : Array2D) (i j : Int) : Option Int :=
  if src.lbound0 ≤ i ∧ i < src.lbound0 + src.extent0 ∧
      src.lbound1 ≤ j ∧ j < src.lbound1 + src.extent1 then
    some (src.data i j)
  else none

/-- The results of a loop body run over a list, in order; `none` as soon as
one run has undefined behaviour. -/
def collect {α : Type} : List (Option α) → Option (List α)
  | [] => some []
  | none :: _ => none
  | some a :: rest => (collect rest).map (fun l => a :: l)

/-- Function `detail::keepInRange` (lines 30-32). -/
def detail.keepInRange (val min max : Int) : Int :=
  if val < min then min else if val > max then max else val

/-- The body of the inner loop of `detail::cropNoCheck2D` (lines 62-68) for
column `x` of a row whose `y + crop_y` is `yc`: the value assigned to
`dst(y, x)`. -/
def detail.crop_cell (src : Array2D) (crop_x : Int) (zero_out : Bool) (yc : Int)
    (is_y_out : Bool) (y_src : Int) (x : Int) : Option Int :=
  (int_add x crop_x).bind (fun xc =>
    if is_y_out || decide (xc < 0) || decide (xc ≥ src.extent1) then
      (int_add src.extent1 (-1)).bind (fun e1 =>
        let x_src := detail.keepInRange xc 0 e1
        if zero_out then some 0
        else
          (int_add y_src src.lbound0).bind (fun i =>
            (int_add x_src src.lbound1).bind (fun j => src.get i j)))
    else
      (int_add yc src.lbound0).bind (fun i =>
        (int_add xc src.lbound1).bind (fun j => src.get i j)))

/-- Function `detail::cropNoCheck2D` (lines 51-71), `dst` being a zero-based
array of `crop_h` rows and `crop_w` columns, as `crop` makes it: the rows
assigned to `dst`, in order. -/
def detail.cropNoCheck2D (src : Array2D) (crop_x crop_y crop_w crop_h : Int)
    (zero_out : Bool) : Option (List (List Int)) :=
  collect ((List.range crop_h.toNat).map (fun (y : Nat) =>
    (int_add (y : Int) crop_y).bind (fun yc =>
      let is_y_out := decide (yc < 0) || decide (yc ≥ src.extent0)
      (int_add src.extent0 (-1)).bind (fun e0 =>
        let y_src := detail.keepInRange yc 0 e0
        collect ((List.range crop_w.toNat).map (fun (x : Nat) =>
          detail.crop_cell src crop_x zero_out yc is_y_out y_src (x : Int)))))))

/-- The exceptions of `ip/Exception.h` that `crop` throws. -/
inductive IpException
  | ParamOutOfBoundaryError (name : String) (is_upper : Bool) (value limit : Int)
  | Exception
  deriving DecidableEq, Repr

/-- How a call of `crop` ends: `dst` holds the cropped rows, or an exception
was thrown. -/
inductive Cropped
  | done (dst : List (List Int))
  | raised (e : IpException)
  deriving DecidableEq, Repr

/-- The condition `crop_x<0 || crop_y<0 || crop_w<0 || crop_h<0 ||
crop_x+crop_w>src.extent(1) || crop_y+crop_h>src.extent(0)` of lines 111-112,
evaluated from left to right; `none` is a signed overflow in a sum that is
reached. -/
def out_of_boundary (src : Array2D) (crop_x crop_y crop_w crop_h : Int) : Option Bool :=
  if crop_x < 0 then some true
  else if crop_y < 0 then some true
  else if crop_w < 0 then some true
  else if crop_h < 0 then some true
  else
    (int_add crop_x crop_w).bind (fun sx =>
      if sx > src.extent1 then some true
      else (int_add crop_y crop_h).bind (fun sy => some (decide (sy > src.extent0))))

/-- Function `crop` for 2D arrays (lines 96-142). The resize and reindexing of
`dst` (lines 102-108) are taken to succeed and leave a zero-based
`crop_h` x `crop_w` array. -/
def crop (src : Array2D) (crop_x crop_y crop_w crop_h : Int) (allow_out zero_out : Bool) :
    Option Cropped :=
  (out_of_boundary src crop_x crop_y crop_w crop_h).bind (fun out =>
    if out && !allow_out then
      if crop_x < 0 then
        some (Cropped.raised (IpException.ParamOutOfBoundaryError "crop_x" false crop_x 0))
      else if crop_y < 0 then
        some (Cropped.raised (IpException.ParamOutOfBoundaryError "crop_y" false crop_y 0))
      else if crop_w < 0 then
        some (Cropped.raised (IpException.ParamOutOfBoundaryError "crop_w" false crop_w 0))
      else if crop_h < 0 then
        some (Cropped.raised (IpException.ParamOutOfBoundaryError "crop_h" false crop_h 0))
      else
        (int_add crop_x crop_w).bind (fun sx =>
          if sx > src.extent1 then
            some (Cropped.raised
              (IpException.ParamOutOfBoundaryError "crop_x+crop_w" true sx src.extent1))
          else
            (int_add crop_y crop_h).bind (fun sy =>
              if sy > src.extent0 then
                some (Cropped.raised
                  (IpException.ParamOutOfBoundaryError "crop_y+crop_h" true sy src.extent0))
              else some (Cropped.raised IpException.Exception)))
    else
      (detail.cropNoCheck2D src crop_x crop_y crop_w crop_h zero_out).map Cropped.done)

/-- The value the documentation of `cropNoCheck2D` gives to `dst(y, x)`: the
source pixel under it when there is one, otherwise zero or the closest source
pixel. -/
def spec_cell (src : Array2D) (crop_x crop_y : Int) (zero_out : Bool) (y x : Int) : Int :=
  if 0 ≤ y + crop_y ∧ y + crop_y < src.extent0 ∧ 0 ≤ x + crop_x ∧ x + crop_x < src.extent1 then
    src.data (y + crop_y) (x + crop_x)
  else if zero_out then 0
  else src.data (max 0 (min (y + crop_y) (src.extent0 - 1)))
    (max 0 (min (x + crop_x) (src.extent1 - 1)))

/-- A zero-based 2 x 3 image whose pixel (i, j) is 10 i + j. -/
def image_2x3 : Array2D :=
  { lbound0 := 0, lbound1 := 0, extent0 := 2, extent1 := 3, data := fun i j => 10 * i + j }

end Torch.ip

namespace bob.io

/-! ## Lemmas on single calls -/

theorem is_compatible_self (t : typeinfo) : t.is_compatible t = true := by
  simp [typeinfo.is_compatible]

theorem operator_ne_end_of_parent (it : const_iterator) (r p : VideoReader)
    (hp : it.m_parent = some p) : const_iterator.operator_ne it r.end_ = true := by
  simp [const_iterator.operator_ne, const_iterator.operator_eq, same_parent, VideoReader.end_,
    const_iterator.default, hp]

theorem operator_ne_end_of_reset (it : const_iterator) (r : VideoReader) :
    const_iterator.operator_ne it.reset r.end_ = false := by
  simp [const_iterator.operator_ne, const_iterator.operator_eq, same_parent, VideoReader.end_,
    const_iterator.default, const_iterator.reset]

theorem read_of_ok (file : VideoFile) (it : const_iterator) (p : VideoReader) (data : interface)
    (t : Bool) (mem : Memory) (c : AVFormatContext)
    (hp : it.m_parent = some p) (hlt : it.m_current_frame < p.m_nframes)
    (hc : data.type.is_compatible p.m_typeinfo_frame = true)
    (hctx : it.m_format_context = some c) (hok : file.outcome c.calls = DecodeOutcome.Ok) :
    const_iterator.read file it data t mem =
      { result := Outcome.returned true,
        it := { it with
                m_format_context := some { calls := c.calls + 1 }
                m_rgb_array := { it.m_rgb_array with data := file.pixels c.calls }
                m_current_frame := (it.m_current_frame + 1) % (SIZE_MAX + 1) },
        mem := transpose_assign mem data.ptr data.type
                { it.m_rgb_array with data := file.pixels c.calls } } := by
  have hnot : ¬ (p.numberOfFrames ≤ it.m_current_frame) := by
    simp [VideoReader.numberOfFrames]; exact hlt
  simp [const_iterator.read, hp, hnot, hc, read_video_frame, demux, hctx, hok]

theorem read_of_fail (file : VideoFile) (it : const_iterator) (p : VideoReader) (data : interface)
    (t : Bool) (mem : Memory)
    (hp : it.m_parent = some p) (hlt : it.m_current_frame < p.m_nframes)
    (hc : data.type.is_compatible p.m_typeinfo_frame = true)
    (hfail : (demux file it.m_format_context).1 ≠ DecodeOutcome.Ok) :
    const_iterator.read file it data t mem =
      { result := if t then Outcome.raised (Exception.runtime_error Message.ffmpeg_failure)
                  else Outcome.returned false,
        it := { it with m_format_context := (demux file it.m_format_context).2 },
        mem := mem } := by
  have hnot : ¬ (p.numberOfFrames ≤ it.m_current_frame) := by
    simp [VideoReader.numberOfFrames]; exact hlt
  cases hctx : it.m_format_context with
  | none => cases t <;> simp [const_iterator.read, hp, hnot, hc, read_video_frame, demux, hctx]
  | some c =>
    rw [hctx] at hfail
    cases ho : file.outcome c.calls with
    | Ok => simp [demux, ho] at hfail
    | EndOfStream =>
      cases t <;> simp [const_iterator.read, hp, hnot, hc, read_video_frame, demux, hctx, ho]
    | Error =>
      cases t <;> simp [const_iterator.read, hp, hnot, hc, read_video_frame, demux, hctx, ho]

theorem read_past_end (file : VideoFile) (it : const_iterator) (p : VideoReader) (data : interface)
    (t : Bool) (mem : Memory)
    (hp : it.m_parent = some p) (hge : p.m_nframes ≤ it.m_current_frame) :
    const_iterator.read file it data t mem =
      if t then
        { result := Outcome.raised (Exception.runtime_error Message.read_past_file_end),
          it := it, mem := mem }
      else { result := Outcome.returned false, it := it.reset, mem := mem } := by
  simp [const_iterator.read, hp, VideoReader.numberOfFrames, hge]

theorem begin_of_pos (file : VideoFile) (r : VideoReader) (hpos : 0 < r.m_nframes) :
    (r.begin file).m_parent = some r ∧ (r.begin file).m_current_frame = 0 ∧
      (r.begin file).m_format_context = some { calls := 0 } := by
  have h : ¬ (r.m_nframes = 0) := by omega
  simp [VideoReader.begin, const_iterator.ofParent, const_iterator.init,
    VideoReader.numberOfFrames, h, const_iterator.default]

theorem size_succ_mod (j n : Nat) (hlt : j < n) (hsz : n ≤ SIZE_MAX) :
    (j + 1) % (SIZE_MAX + 1) = j + 1 :=
  Nat.mod_eq_of_lt (by omega)

theorem operator_inc_of_ok (file : VideoFile) (it : const_iterator) (p : VideoReader)
    (c : AVFormatContext) (hp : it.m_parent = some p)
    (hlt : it.m_current_frame < p.m_nframes) (hsz : p.m_nframes ≤ SIZE_MAX)
    (hctx : it.m_format_context = some c) (hok : file.outcome c.calls = DecodeOutcome.Ok) :
    const_iterator.operator_inc file it =
      (Outcome.returned (),
        { it with
          m_format_context := some { calls := c.calls + 1 }
          m_current_frame := it.m_current_frame + 1 }) := by
  have hnot : ¬ (p.numberOfFrames ≤ it.m_current_frame) := by
    simp [VideoReader.numberOfFrames]; exact hlt
  simp [const_iterator.operator_inc, hp, hnot, skip_video_frame, demux, hctx, hok,
    size_succ_mod _ _ hlt hsz]

theorem operator_inc_past_end (file : VideoFile) (it : const_iterator) (p : VideoReader)
    (hp : it.m_parent = some p) (hge : p.m_nframes ≤ it.m_current_frame) :
    const_iterator.operator_inc file it = (Outcome.returned (), it.reset) := by
  simp [const_iterator.operator_inc, hp, VideoReader.numberOfFrames, hge]

theorem operator_eq_end_of_parent (it : const_iterator) (r p : VideoReader)
    (hp : it.m_parent = some p) : const_iterator.operator_eq it r.end_ = false := by
  simp [const_iterator.operator_eq, same_parent, VideoReader.end_, const_iterator.default, hp]

theorem operator_eq_end_of_reset (it : const_iterator) (r : VideoReader) :
    const_iterator.operator_eq it.reset r.end_ = true := by
  simp [const_iterator.operator_eq, same_parent, VideoReader.end_, const_iterator.default,
    const_iterator.reset]

theorem begin_of_zero (file : VideoFile) (r : VideoReader) (h0 : r.m_nframes = 0) :
    (r.begin file).m_parent = none ∧ (r.begin file).m_current_frame = SIZE_MAX ∧
      const_iterator.operator_eq (r.begin file) r.end_ = true := by
  simp [VideoReader.begin, const_iterator.ofParent, const_iterator.init,
    VideoReader.numberOfFrames, h0, const_iterator.default, const_iterator.reset,
    const_iterator.operator_eq, same_parent, VideoReader.end_]

theorem operator_add_assign_healthy (file : VideoFile) (r : VideoReader)
    (hsz : r.m_nframes ≤ SIZE_MAX)
    (hh : ∀ i, i < r.m_nframes → file.outcome i = DecodeOutcome.Ok) :
    ∀ (d j : Nat) (it : const_iterator),
      j + d ≤ r.m_nframes → it.m_parent = some r → it.m_current_frame = j →
      it.m_format_context = some { calls := j } →
      (const_iterator.operator_add_assign file d it).1 = Outcome.returned () ∧
      (const_iterator.operator_add_assign file d it).2.m_parent = some r ∧
      (const_iterator.operator_add_assign file d it).2.m_current_frame = j + d ∧
      (const_iterator.operator_add_assign file d it).2.m_format_context =
        some { calls := j + d } := by
  intro d
  induction d with
  | zero =>
    intro j it _ hp hcur hctx
    simp [const_iterator.operator_add_assign, hp, hcur, hctx]
  | succ d ih =>
    intro j it hj hp hcur hctx
    have hlt : it.m_current_frame < r.m_nframes := by omega
    have hinc := operator_inc_of_ok file it r { calls := j } hp hlt hsz hctx (hh j (by omega))
    have hrec := ih (j + 1)
      { it with m_format_context := some { calls := j + 1 }, m_current_frame := j + 1 }
      (by omega) hp rfl rfl
    simp only [const_iterator.operator_add_assign, hinc, hcur]
    simpa [Nat.add_assoc, Nat.add_comm 1 d] using hrec

theorem operator_add_assign_reaches_end (file : VideoFile) (r : VideoReader)
    (hsz : r.m_nframes ≤ SIZE_MAX)
    (hh : ∀ i, i < r.m_nframes → file.outcome i = DecodeOutcome.Ok) :
    ∀ (d j : Nat) (it : const_iterator),
      j + d = r.m_nframes → it.m_parent = some r → it.m_current_frame = j →
      it.m_format_context = some { calls := j } →
      (const_iterator.operator_add_assign file (d + 1) it).1 = Outcome.returned () ∧
      const_iterator.operator_eq (const_iterator.operator_add_assign file (d + 1) it).2 r.end_
        = true := by
  intro d
  induction d with
  | zero =>
    intro j it hj hp hcur _
    have hge : r.m_nframes ≤ it.m_current_frame := by omega
    simp [const_iterator.operator_add_assign, operator_inc_past_end file it r hp hge,
      operator_eq_end_of_reset]
  | succ d ih =>
    intro j it hj hp hcur hctx
    have hlt : it.m_current_frame < r.m_nframes := by omega
    have hinc := operator_inc_of_ok file it r { calls := j } hp hlt hsz hctx (hh j (by omega))
    have hrec := ih (j + 1)
      { it with m_format_context := some { calls := j + 1 }, m_current_frame := j + 1 }
      (by omega) hp rfl rfl
    rw [const_iterator.operator_add_assign, hinc]
    simpa [hcur] using hrec

theorem read_times_healthy (file : VideoFile) (r : VideoReader) (data : interface) (t : Bool)
    (hsz : r.m_nframes ≤ SIZE_MAX)
    (hh : ∀ i, i < r.m_nframes → file.outcome i = DecodeOutcome.Ok)
    (hc : data.type.is_compatible r.m_typeinfo_frame = true) :
    ∀ (d j : Nat) (it : const_iterator) (mem : Memory),
      j + d ≤ r.m_nframes → it.m_parent = some r → it.m_current_frame = j →
      it.m_format_context = some { calls := j } →
      (read_times file data t d it mem).1 = List.replicate d (Outcome.returned true) ∧
      (read_times file data t d it mem).2.1.m_parent = some r ∧
      (read_times file data t d it mem).2.1.m_current_frame = j + d := by
  intro d
  induction d with
  | zero =>
    intro j it mem _ hp hcur _
    simp [read_times, hp, hcur]
  | succ d ih =>
    intro j it mem hj hp hcur hctx
    have hlt : it.m_current_frame < r.m_nframes := by omega
    have hread := read_of_ok file it r data t mem { calls := j } hp hlt hc hctx (hh j (by omega))
    have hmod := size_succ_mod j r.m_nframes (by omega) hsz
    have hrec := ih (j + 1)
      { it with
        m_format_context := some { calls := j + 1 }
        m_rgb_array := { it.m_rgb_array with data := file.pixels j }
        m_current_frame := j + 1 }
      (transpose_assign mem data.ptr data.type { it.m_rgb_array with data := file.pixels j })
      (by omega) hp rfl rfl
    simp only [read_times, hread, hmod, hcur]
    simpa [Nat.add_assoc, Nat.add_comm 1 d, List.replicate_succ] using hrec

/-! ## Lemmas on the load loop -/

theorem load_loop_healthy (file : VideoFile) (r : VideoReader) (t : Bool)
    (hsz : r.m_nframes ≤ SIZE_MAX)
    (hh : ∀ i, i < r.m_nframes → file.outcome i = DecodeOutcome.Ok) :
    ∀ (d j : Nat) (it : const_iterator) (ptr : Nat) (mem : Memory) (reads fuel : Nat),
      j + d = r.m_nframes → it.m_parent = some r → it.m_current_frame = j →
      it.m_format_context = some { calls := j } → d + 2 ≤ fuel →
      ∃ l, load_loop file r t fuel it ptr j mem reads = some l ∧
        l.result = (if t then Outcome.raised (Exception.runtime_error Message.read_past_file_end)
                    else Outcome.returned r.m_nframes) ∧
        l.reads = reads + d + 1 := by
  intro d
  induction d with
  | zero =>
    intro j it ptr mem reads fuel hj hp hcur hctx hfuel
    obtain ⟨f, rfl⟩ : ∃ f, fuel = f + 2 := ⟨fuel - 2, by omega⟩
    have hge : r.m_nframes ≤ it.m_current_frame := by omega
    have hj2 : j = r.m_nframes := by omega
    cases t with
    | true =>
      simp [load_loop, operator_ne_end_of_parent it r r hp,
        read_past_end file it r _ true mem hp hge]
    | false =>
      simp [load_loop, operator_ne_end_of_parent it r r hp,
        read_past_end file it r _ false mem hp hge, operator_ne_end_of_reset, hj2]
  | succ d ih =>
    intro j it ptr mem reads fuel hj hp hcur hctx hfuel
    obtain ⟨f, rfl⟩ : ∃ f, fuel = f + 1 := ⟨fuel - 1, by omega⟩
    have hlt : it.m_current_frame < r.m_nframes := by omega
    have hmod : (j + 1) % (SIZE_MAX + 1) = j + 1 := by
      apply Nat.mod_eq_of_lt
      omega
    have hread := read_of_ok file it r { type := r.m_typeinfo_frame, ptr := ptr } t mem
      { calls := j } hp hlt (is_compatible_self _) hctx (hh j (by omega))
    obtain ⟨l, hl, hres, hreads⟩ := ih (j + 1)
      { it with
        m_format_context := some { calls := j + 1 }
        m_rgb_array := { it.m_rgb_array with data := file.pixels j }
        m_current_frame := j + 1 }
      (ptr + r.m_typeinfo_frame.buffer_size)
      (transpose_assign mem ptr r.m_typeinfo_frame
        { it.m_rgb_array with data := file.pixels j })
      (reads + 1) f (by omega) hp rfl rfl (by omega)
    refine ⟨l, ?_, hres, by omega⟩
    rw [← hl]
    simp [load_loop, operator_ne_end_of_parent it r r hp, hread, hcur, hmod]

/-! ## Bulk load -/

/-- C1: for every reader whose frame count fits `size_t`, a healthy stream
(each of the frame_count demux calls succeeds) and a buffer compatible with the
bulk descriptor, `load` with `throw_on_error = false` returns: with
frame_count + 2 units of fuel or more it ends, its result is exactly
frame_count, and nothing is raised. -/
theorem load_nonstrict_healthy_returns_frame_count (file : VideoFile) (r : VideoReader)
    (b : interface) (mem : Memory) (fuel : Nat)
    (hsz : r.m_nframes ≤ SIZE_MAX)
    (hh : ∀ i, i < r.m_nframes → file.outcome i = DecodeOutcome.Ok)
    (hc : r.m_typeinfo_video.is_compatible b.type = true)
    (hfuel : r.m_nframes + 2 ≤ fuel) :
    ∃ l, r.load file b false mem fuel = some l ∧
      l.result = Outcome.returned r.m_nframes := by
  by_cases h0 : r.m_nframes = 0
  · obtain ⟨f, rfl⟩ : ∃ f, fuel = f + 1 := ⟨fuel - 1, by omega⟩
    refine ⟨{ result := Outcome.returned 0, mem := mem, reads := 0 }, ?_, by simp [h0]⟩
    simp [VideoReader.load, hc, VideoReader.begin, const_iterator.ofParent,
      const_iterator.init, VideoReader.numberOfFrames, h0, load_loop, operator_ne_end_of_reset]
  · have hb : (r.begin file).m_parent = some r ∧ (r.begin file).m_current_frame = 0 ∧
        (r.begin file).m_format_context = some { calls := 0 } := begin_of_pos file r (by omega)
    obtain ⟨l, hl, hres, -⟩ := load_loop_healthy file r false hsz hh r.m_nframes 0
      (r.begin file) b.ptr mem 0 fuel (by omega) hb.1 hb.2.1 hb.2.2 hfuel
    exact ⟨l, by simp [VideoReader.load, hc, hl], by simpa using hres⟩

/-- Witness of C1: a healthy two-frame 1x1 video loaded with 4 units of fuel. -/
theorem load_nonstrict_healthy_returns_frame_count_witness :
    (reader_1x1 2).m_nframes ≤ SIZE_MAX ∧
    (∀ i, i < (reader_1x1 2).m_nframes → healthy_file.outcome i = DecodeOutcome.Ok) ∧
    (reader_1x1 2).m_typeinfo_video.is_compatible (bulk_buffer 2).type = true ∧
    ∃ l, (reader_1x1 2).load healthy_file (bulk_buffer 2) false zero_memory 4 = some l ∧
      l.result = Outcome.returned (reader_1x1 2).m_nframes :=
  ⟨by decide, fun _ _ => rfl, by decide,
    load_nonstrict_healthy_returns_frame_count healthy_file (reader_1x1 2) (bulk_buffer 2)
      zero_memory 4 (by decide) (fun _ _ => rfl) (by decide) (by decide)⟩

/-- C2 (evaluation at the failing input): a healthy one-frame 1x1 video loaded
with `throw_on_error = true` into a compatible buffer. The single frame is
read, then the loop calls `read` once more at cursor == frame_count, and that
call throws the read-past-end `std::runtime_error`, which leaves `load`. -/
theorem load_strict_healthy_raises_at_one_frame :
    ((reader_1x1 1).load healthy_file (bulk_buffer 1) true zero_memory 3).map Loaded.result =
      some (Outcome.raised (Exception.runtime_error Message.read_past_file_end)) := by
  decide

/-- C3 (evaluation at the failing input): a one-frame 1x1 video whose first
demux call fails (k = 0) and whose later calls succeed, loaded with
`throw_on_error = false`. The failed `read` leaves the iterator where it was,
the loop calls `read` again, and `load` returns 1 after three `read` calls
instead of stopping with 0. -/
theorem load_nonstrict_continues_after_failure :
    damaged_file.outcome 0 = DecodeOutcome.Error ∧
    ((reader_1x1 1).load damaged_file (bulk_buffer 1) false zero_memory 4).map
      (fun l => (l.result, l.reads)) = some (Outcome.returned 1, 3) := by
  decide

/-- C4: for every reader, every buffer whose type is not compatible with the
bulk descriptor, either value of `throw_on_error` and any amount of fuel,
`load` throws `std::invalid_argument` (buffer does not conform to the video
size) having made no `read` call and with the memory exactly as it was. -/
theorem load_incompatible_buffer_raises (file : VideoFile) (r : VideoReader) (b : interface)
    (throw_on_error : Bool) (mem : Memory) (fuel : Nat)
    (hc : r.m_typeinfo_video.is_compatible b.type = false) :
    r.load file b throw_on_error mem fuel =
      some { result := Outcome.raised (Exception.invalid_argument Message.buffer_not_video_size),
             mem := mem, reads := 0 } := by
  simp [VideoReader.load, hc]

/-- Witness of C4: a three-frame bulk buffer offered to a two-frame reader. -/
theorem load_incompatible_buffer_raises_witness :
    (reader_1x1 2).m_typeinfo_video.is_compatible (bulk_buffer 3).type = false ∧
    (reader_1x1 2).load healthy_file (bulk_buffer 3) true zero_memory 0 =
      some { result := Outcome.raised (Exception.invalid_argument Message.buffer_not_video_size),
             mem := zero_memory, reads := 0 } :=
  ⟨by decide, load_incompatible_buffer_raises healthy_file (reader_1x1 2) (bulk_buffer 3) true
    zero_memory 0 (by decide)⟩

/-! ## Single-frame read -/

/-- C5 (counterexample): on the healthy one-frame 1x1 video, the iterator that
has read its only frame still has its parent and sits at cursor ==
frame_count; `read` into a float64 buffer, which is not compatible with the
single-frame descriptor, then returns false (non-strict) or throws the
read-past-end `std::runtime_error` (strict): the end-of-stream check comes
first and no `std::invalid_argument` is thrown. -/
theorem read_at_end_skips_shape_check :
    iterator_after_last_frame.m_parent = some (reader_1x1 1) ∧
    iterator_after_last_frame.m_current_frame = (reader_1x1 1).m_nframes ∧
    float_buffer.type.is_compatible (reader_1x1 1).m_typeinfo_frame = false ∧
    (const_iterator.read healthy_file iterator_after_last_frame float_buffer false
      zero_memory).result = Outcome.returned false ∧
    (const_iterator.read healthy_file iterator_after_last_frame float_buffer true
      zero_memory).result =
        Outcome.raised (Exception.runtime_error Message.read_past_file_end) := by
  decide

/-- C5 (amended): for every iterator that still has a parent, every buffer
whose type is not compatible with the single-frame descriptor and either value
of `throw_on_error`: when cursor < frame_count, `read` throws
`std::invalid_argument` and leaves iterator and memory untouched; when cursor
>= frame_count the end-of-stream check comes first, and `read` throws the
read-past-end `std::runtime_error` (strict) or resets the iterator and returns
false (non-strict), the memory untouched in both cases. -/
theorem read_incompatible_buffer (file : VideoFile) (it : const_iterator) (p : VideoReader)
    (data : interface) (throw_on_error : Bool) (mem : Memory)
    (hp : it.m_parent = some p)
    (hc : data.type.is_compatible p.m_typeinfo_frame = false) :
    (it.m_current_frame < p.m_nframes →
      const_iterator.read file it data throw_on_error mem =
        { result := Outcome.raised (Exception.invalid_argument Message.buffer_not_frame_size),
          it := it, mem := mem }) ∧
    (p.m_nframes ≤ it.m_current_frame →
      const_iterator.read file it data throw_on_error mem =
        if throw_on_error then
          { result := Outcome.raised (Exception.runtime_error Message.read_past_file_end),
            it := it, mem := mem }
        else { result := Outcome.returned false, it := it.reset, mem := mem }) := by
  constructor
  · intro hlt
    have hnot : ¬ (p.numberOfFrames ≤ it.m_current_frame) := by
      simp [VideoReader.numberOfFrames]; exact hlt
    simp [const_iterator.read, hp, hnot, hc]
  · intro hge
    exact read_past_end file it p data throw_on_error mem hp hge

/-- Witness of C5 (amended): the fresh iterator of a two-frame 1x1 video and a
float64 buffer. -/
theorem read_incompatible_buffer_witness :
    ((reader_1x1 2).begin healthy_file).m_parent = some (reader_1x1 2) ∧
    float_buffer.type.is_compatible (reader_1x1 2).m_typeinfo_frame = false ∧
    const_iterator.read healthy_file ((reader_1x1 2).begin healthy_file) float_buffer false
        zero_memory =
      { result := Outcome.raised (Exception.invalid_argument Message.buffer_not_frame_size),
        it := (reader_1x1 2).begin healthy_file, mem := zero_memory } :=
  ⟨by decide, by decide,
    (read_incompatible_buffer healthy_file ((reader_1x1 2).begin healthy_file) (reader_1x1 2)
      float_buffer false zero_memory (by decide) (by decide)).1 (by decide)⟩

/-- C6 (counterexample): on a zero-frame reader `begin()` has no parent, so the
read that follows zero successful reads throws the already-reached-its-end
`std::runtime_error` in non-strict mode (it does not return false) and the
same error, not the read-past-end one, in strict mode. -/
theorem read_after_zero_frames_raises :
    (read_times healthy_file frame_buffer false 0 ((reader_1x1 0).begin healthy_file)
      zero_memory).1 = [] ∧
    (const_iterator.read healthy_file ((reader_1x1 0).begin healthy_file) frame_buffer false
      zero_memory).result =
        Outcome.raised (Exception.runtime_error Message.already_reached_end) ∧
    (const_iterator.read healthy_file ((reader_1x1 0).begin healthy_file) frame_buffer true
      zero_memory).result =
        Outcome.raised (Exception.runtime_error Message.already_reached_end) := by
  decide

/-- C6 (amended): for every reader whose frame count fits `size_t`, a healthy
stream and a buffer compatible with the single-frame descriptor, the first
frame_count `read` calls from `begin()` all return true; when frame_count >= 1
the next `read` returns false with `throw_on_error = false` and throws the
read-past-end `std::runtime_error` with `throw_on_error = true`; when
frame_count == 0 the next `read` throws the already-reached-its-end
`std::runtime_error` for either value of `throw_on_error`. -/
theorem read_after_frame_count_reads (file : VideoFile) (r : VideoReader) (data : interface)
    (t : Bool) (mem : Memory)
    (hsz : r.m_nframes ≤ SIZE_MAX)
    (hh : ∀ i, i < r.m_nframes → file.outcome i = DecodeOutcome.Ok)
    (hc : data.type.is_compatible r.m_typeinfo_frame = true) :
    (read_times file data t r.m_nframes (r.begin file) mem).1 =
      List.replicate r.m_nframes (Outcome.returned true) ∧
    (1 ≤ r.m_nframes →
      (const_iterator.read file (read_times file data t r.m_nframes (r.begin file) mem).2.1
        data false (read_times file data t r.m_nframes (r.begin file) mem).2.2).result =
          Outcome.returned false ∧
      (const_iterator.read file (read_times file data t r.m_nframes (r.begin file) mem).2.1
        data true (read_times file data t r.m_nframes (r.begin file) mem).2.2).result =
          Outcome.raised (Exception.runtime_error Message.read_past_file_end)) ∧
    (r.m_nframes = 0 → ∀ t2 : Bool,
      (const_iterator.read file (read_times file data t r.m_nframes (r.begin file) mem).2.1
        data t2 (read_times file data t r.m_nframes (r.begin file) mem).2.2).result =
          Outcome.raised (Exception.runtime_error Message.already_reached_end)) := by
  refine ⟨?_, ?_, ?_⟩
  · by_cases h0 : r.m_nframes = 0
    · simp [h0, read_times]
    · obtain ⟨hp, hcur, hctx⟩ := begin_of_pos file r (by omega)
      exact (read_times_healthy file r data t hsz hh hc r.m_nframes 0 (r.begin file) mem
        (by omega) hp hcur hctx).1
  · intro hpos
    obtain ⟨hp, hcur, hctx⟩ := begin_of_pos file r (by omega)
    obtain ⟨-, hp2, hcur2⟩ := read_times_healthy file r data t hsz hh hc r.m_nframes 0
      (r.begin file) mem (by omega) hp hcur hctx
    constructor
    · rw [read_past_end file _ r data false _ hp2 (by omega)]; simp
    · rw [read_past_end file _ r data true _ hp2 (by omega)]; simp
  · intro h0 t2
    have hb := (begin_of_zero file r h0).1
    simp [h0, read_times, const_iterator.read, hb]

/-- Witness of C6 (amended): the healthy two-frame 1x1 video; two reads
succeed, the third returns false. -/
theorem read_after_frame_count_reads_witness :
    (reader_1x1 2).m_nframes ≤ SIZE_MAX ∧
    frame_buffer.type.is_compatible (reader_1x1 2).m_typeinfo_frame = true ∧
    (read_times healthy_file frame_buffer true (reader_1x1 2).m_nframes
      ((reader_1x1 2).begin healthy_file) zero_memory).1 =
        List.replicate (reader_1x1 2).m_nframes (Outcome.returned true) ∧
    (const_iterator.read healthy_file
      (read_times healthy_file frame_buffer true (reader_1x1 2).m_nframes
        ((reader_1x1 2).begin healthy_file) zero_memory).2.1
      frame_buffer false
      (read_times healthy_file frame_buffer true (reader_1x1 2).m_nframes
        ((reader_1x1 2).begin healthy_file) zero_memory).2.2).result = Outcome.returned false :=
  ⟨by decide, by decide,
    (read_after_frame_count_reads healthy_file (reader_1x1 2) frame_buffer true zero_memory
      (by decide) (fun _ _ => rfl) (by decide)).1,
    ((read_after_frame_count_reads healthy_file (reader_1x1 2) frame_buffer true zero_memory
      (by decide) (fun _ _ => rfl) (by decide)).2.1 (by decide)).1⟩

/-! ## Advancing and the end value -/

/-- C7 (counterexample): on the healthy one-frame 1x1 video, `begin()` advanced
once still has its parent, sits at cursor 1 and does not compare equal to
`end()`. -/
theorem advance_frame_count_times_not_end :
    (const_iterator.operator_add_assign healthy_file (reader_1x1 1).m_nframes
      ((reader_1x1 1).begin healthy_file)).1 = Outcome.returned () ∧
    const_iterator.operator_eq
      (const_iterator.operator_add_assign healthy_file (reader_1x1 1).m_nframes
        ((reader_1x1 1).begin healthy_file)).2 (reader_1x1 1).end_ = false := by
  decide

/-- C7 (amended): for every reader whose frame count n fits `size_t` and a
healthy stream, `begin()` advanced n times compares equal to `end()` exactly
when n = 0; when n >= 1 it still has its parent and cursor n, and `begin()`
advanced n + 1 times compares equal to `end()`, no advance throwing. -/
theorem advance_reaches_end (file : VideoFile) (r : VideoReader)
    (hsz : r.m_nframes ≤ SIZE_MAX)
    (hh : ∀ i, i < r.m_nframes → file.outcome i = DecodeOutcome.Ok) :
    (const_iterator.operator_eq
        (const_iterator.operator_add_assign file r.m_nframes (r.begin file)).2 r.end_ = true
      ↔ r.m_nframes = 0) ∧
    (1 ≤ r.m_nframes →
      (const_iterator.operator_add_assign file r.m_nframes (r.begin file)).2.m_parent = some r ∧
      (const_iterator.operator_add_assign file r.m_nframes (r.begin file)).2.m_current_frame
        = r.m_nframes ∧
      (const_iterator.operator_add_assign file (r.m_nframes + 1) (r.begin file)).1
        = Outcome.returned () ∧
      const_iterator.operator_eq
        (const_iterator.operator_add_assign file (r.m_nframes + 1) (r.begin file)).2 r.end_
        = true) := by
  by_cases h0 : r.m_nframes = 0
  · refine ⟨⟨fun _ => h0, fun _ => ?_⟩, fun h => by omega⟩
    simp only [h0, const_iterator.operator_add_assign]
    exact (begin_of_zero file r h0).2.2
  · obtain ⟨hp, hcur, hctx⟩ := begin_of_pos file r (by omega)
    obtain ⟨-, hp2, hcur2, -⟩ := operator_add_assign_healthy file r hsz hh r.m_nframes 0
      (r.begin file) (by omega) hp hcur hctx
    refine ⟨⟨fun h => ?_, fun h => absurd h h0⟩, fun _ => ⟨hp2, by omega, ?_⟩⟩
    · rw [operator_eq_end_of_parent _ r r hp2] at h
      exact absurd h (by decide)
    · exact operator_add_assign_reaches_end file r hsz hh r.m_nframes 0 (r.begin file)
        (by omega) hp hcur hctx

/-- Witness of C7 (amended): the healthy two-frame 1x1 video, advanced three
times. -/
theorem advance_reaches_end_witness :
    (reader_1x1 2).m_nframes ≤ SIZE_MAX ∧
    const_iterator.operator_eq
      (const_iterator.operator_add_assign healthy_file ((reader_1x1 2).m_nframes + 1)
        ((reader_1x1 2).begin healthy_file)).2 (reader_1x1 2).end_ = true :=
  ⟨by decide,
    ((advance_reaches_end healthy_file (reader_1x1 2) (by decide) (fun _ _ => rfl)).2
      (by decide)).2.2.2⟩

/-- C8: `begin()` on a reader with frame_count >= 1 is Active: its parent is
that reader, its cursor is 0 and it holds a fresh session; `begin()` on a
reader with frame_count == 0 is Exhausted: no parent, cursor == SIZE_MAX, every
session handle empty, and it compares equal to `end()`. -/
theorem begin_active_or_exhausted (file : VideoFile) (r : VideoReader) :
    (1 ≤ r.m_nframes →
      (r.begin file).m_parent = some r ∧ (r.begin file).m_current_frame = 0 ∧
      (r.begin file).m_format_context = some { calls := 0 } ∧
      const_iterator.operator_eq (r.begin file) r.end_ = false) ∧
    (r.m_nframes = 0 →
      (r.begin file).m_parent = none ∧ (r.begin file).m_current_frame = SIZE_MAX ∧
      (r.begin file).m_format_context = none ∧ (r.begin file).m_codec_context = none ∧
      (r.begin file).m_codec = false ∧ (r.begin file).m_swscaler = false ∧
      (r.begin file).m_context_frame = false ∧
      const_iterator.operator_eq (r.begin file) r.end_ = true) := by
  constructor
  · intro hpos
    obtain ⟨hp, hcur, hctx⟩ := begin_of_pos file r (by omega)
    exact ⟨hp, hcur, hctx, operator_eq_end_of_parent _ r r hp⟩
  · intro h0
    simp [VideoReader.begin, const_iterator.ofParent, const_iterator.init,
      VideoReader.numberOfFrames, h0, const_iterator.default, const_iterator.reset,
      const_iterator.operator_eq, same_parent, VideoReader.end_]

/-- C9 (evaluation at the failing input): the fresh iterator of a one-frame 1x1
video whose first demux call fails, read with `throw_on_error = false` into a
compatible buffer. `read` returns false, and the iterator keeps its parent, its
cursor 0 and its session (one call further): it does not compare equal to
`end()`. -/
theorem read_failure_leaves_iterator_active :
    damaged_file.outcome 0 = DecodeOutcome.Error ∧
    (const_iterator.read damaged_file ((reader_1x1 1).begin damaged_file) frame_buffer false
      zero_memory).result = Outcome.returned false ∧
    (const_iterator.read damaged_file ((reader_1x1 1).begin damaged_file) frame_buffer false
      zero_memory).it.m_parent = some (reader_1x1 1) ∧
    (const_iterator.read damaged_file ((reader_1x1 1).begin damaged_file) frame_buffer false
      zero_memory).it.m_current_frame = 0 ∧
    (const_iterator.read damaged_file ((reader_1x1 1).begin damaged_file) frame_buffer false
      zero_memory).it.m_format_context = some { calls := 1 } ∧
    const_iterator.operator_eq
      (const_iterator.read damaged_file ((reader_1x1 1).begin damaged_file) frame_buffer false
        zero_memory).it (reader_1x1 1).end_ = false := by
  decide

/-- C10: for every iterator with a parent whose frame count fits `size_t` and
with cursor c < frame_count: when the skip call returns true, `operator++`
returns with the same parent and cursor c + 1; when the skip call throws
`std::runtime_error`, `operator++` catches it and returns without throwing,
the iterator reset: no parent, cursor == SIZE_MAX, every session handle empty;
and a skip call whose demux step ends in EndOfStream or Error does throw
`std::runtime_error`, being made with `throw_on_error = true`. -/
theorem advance_active (file : VideoFile) (it : const_iterator) (p : VideoReader)
    (hp : it.m_parent = some p) (hlt : it.m_current_frame < p.m_nframes)
    (hsz : p.m_nframes ≤ SIZE_MAX) :
    (∀ ctx1, skip_video_frame file it.m_format_context true = (Outcome.returned true, ctx1) →
      const_iterator.operator_inc file it =
        (Outcome.returned (),
          { it with m_format_context := ctx1, m_current_frame := it.m_current_frame + 1 })) ∧
    (∀ what ctx1, skip_video_frame file it.m_format_context true =
        (Outcome.raised (Exception.runtime_error what), ctx1) →
      (const_iterator.operator_inc file it).1 = Outcome.returned () ∧
      (const_iterator.operator_inc file it).2.m_parent = none ∧
      (const_iterator.operator_inc file it).2.m_current_frame = SIZE_MAX ∧
      (const_iterator.operator_inc file it).2.m_format_context = none ∧
      (const_iterator.operator_inc file it).2.m_codec_context = none ∧
      (const_iterator.operator_inc file it).2.m_codec = false ∧
      (const_iterator.operator_inc file it).2.m_swscaler = false ∧
      (const_iterator.operator_inc file it).2.m_context_frame = false) ∧
    ((demux file it.m_format_context).1 ≠ DecodeOutcome.Ok →
      skip_video_frame file it.m_format_context true =
        (Outcome.raised (Exception.runtime_error Message.ffmpeg_failure),
          (demux file it.m_format_context).2)) := by
  have hnot : ¬ (p.numberOfFrames ≤ it.m_current_frame) := by
    simp [VideoReader.numberOfFrames]; exact hlt
  have hmod := size_succ_mod _ _ hlt hsz
  refine ⟨?_, ?_, ?_⟩
  · intro ctx1 hskip
    simp [const_iterator.operator_inc, hp, hnot, hskip, hmod]
  · intro what ctx1 hskip
    simp [const_iterator.operator_inc, hp, hnot, hskip, const_iterator.reset]
  · intro hfail
    rcases hd : demux file it.m_format_context with ⟨o, ctx1⟩
    rw [hd] at hfail
    cases o with
    | Ok => exact absurd rfl hfail
    | EndOfStream => simp [skip_video_frame, hd]
    | Error => simp [skip_video_frame, hd]

/-- Witness of C10: the fresh iterator of the healthy two-frame 1x1 video, whose
skip call succeeds, and that of the damaged one, whose skip call throws. -/
theorem advance_active_witness :
    ((reader_1x1 2).begin healthy_file).m_parent = some (reader_1x1 2) ∧
    ((reader_1x1 2).begin healthy_file).m_current_frame < (reader_1x1 2).m_nframes ∧
    (reader_1x1 2).m_nframes ≤ SIZE_MAX ∧
    const_iterator.operator_inc healthy_file ((reader_1x1 2).begin healthy_file) =
      (Outcome.returned (),
        { (reader_1x1 2).begin healthy_file with
          m_format_context := some { calls := 1 }
          m_current_frame := ((reader_1x1 2).begin healthy_file).m_current_frame + 1 }) ∧
    (const_iterator.operator_inc damaged_file ((reader_1x1 2).begin damaged_file)).2.m_parent
      = none :=
  ⟨by decide, by decide, by decide,
    (advance_active healthy_file ((reader_1x1 2).begin healthy_file) (reader_1x1 2)
      (by decide) (by decide) (by decide)).1 (some { calls := 1 }) (by decide),
    ((advance_active damaged_file ((reader_1x1 2).begin damaged_file) (reader_1x1 2)
      (by decide) (by decide) (by decide)).2.1 Message.ffmpeg_failure (some { calls := 1 })
      (by decide)).2.1⟩

/-! ## Lemmas on reachable states -/

theorem read_step (file : VideoFile) (it : const_iterator) (data : interface) (t : Bool)
    (mem : Memory) :
    ((const_iterator.read file it data t mem).it.m_parent = none ∧
      (const_iterator.read file it data t mem).it.m_current_frame = SIZE_MAX ∧
      it.m_parent ≠ none) ∨
    ((const_iterator.read file it data t mem).it.m_parent = it.m_parent ∧
      ((const_iterator.read file it data t mem).it.m_current_frame = it.m_current_frame ∨
        ∃ p, it.m_parent = some p ∧ it.m_current_frame < p.m_nframes ∧
          (const_iterator.read file it data t mem).it.m_current_frame =
            (it.m_current_frame + 1) % (SIZE_MAX + 1))) := by
  cases hp : it.m_parent with
  | none => simp [const_iterator.read, hp]
  | some p =>
    by_cases hge : p.m_nframes ≤ it.m_current_frame
    · rw [read_past_end file it p data t mem hp hge]
      cases t <;> simp [const_iterator.reset, hp]
    · have hlt : it.m_current_frame < p.m_nframes := by omega
      have hnot : ¬ (p.numberOfFrames ≤ it.m_current_frame) := by
        simp [VideoReader.numberOfFrames]; exact hlt
      cases hc : data.type.is_compatible p.m_typeinfo_frame with
      | false => simp [const_iterator.read, hp, hnot, hc]
      | true =>
        by_cases hd : (demux file it.m_format_context).1 = DecodeOutcome.Ok
        · cases hctx : it.m_format_context with
          | none => simp [demux, hctx] at hd
          | some c =>
            rw [hctx] at hd
            rw [read_of_ok file it p data t mem c hp hlt hc hctx (by simpa [demux] using hd)]
            right
            exact ⟨hp, Or.inr ⟨p, rfl, hlt, rfl⟩⟩
        · rw [read_of_fail file it p data t mem hp hlt hc hd]
          right
          exact ⟨hp, Or.inl rfl⟩

theorem operator_inc_step (file : VideoFile) (it : const_iterator) :
    ((const_iterator.operator_inc file it).2.m_parent = none ∧
      (const_iterator.operator_inc file it).2.m_current_frame = SIZE_MAX ∧
      it.m_parent ≠ none) ∨
    ((const_iterator.operator_inc file it).2.m_parent = it.m_parent ∧
      ((const_iterator.operator_inc file it).2.m_current_frame = it.m_current_frame ∨
        ∃ p, it.m_parent = some p ∧ it.m_current_frame < p.m_nframes ∧
          (const_iterator.operator_inc file it).2.m_current_frame =
            (it.m_current_frame + 1) % (SIZE_MAX + 1))) := by
  cases hp : it.m_parent with
  | none => simp [const_iterator.operator_inc, hp]
  | some p =>
    by_cases hge : p.m_nframes ≤ it.m_current_frame
    · rw [operator_inc_past_end file it p hp hge]
      simp [const_iterator.reset]
    · have hlt : it.m_current_frame < p.m_nframes := by omega
      have hnot : ¬ (p.numberOfFrames ≤ it.m_current_frame) := by
        simp [VideoReader.numberOfFrames]; exact hlt
      rcases hd : demux file it.m_format_context with ⟨o, ctx1⟩
      cases o with
      | Ok =>
        have hv : const_iterator.operator_inc file it =
            (Outcome.returned (),
              { it with
                m_format_context := ctx1
                m_current_frame := (it.m_current_frame + 1) % (SIZE_MAX + 1) }) := by
          simp [const_iterator.operator_inc, hp, hnot, skip_video_frame, hd]
        rw [hv]
        right
        exact ⟨hp, Or.inr ⟨p, rfl, hlt, rfl⟩⟩
      | EndOfStream =>
        left
        simp [const_iterator.operator_inc, hp, hnot, skip_video_frame, hd, const_iterator.reset]
      | Error =>
        left
        simp [const_iterator.operator_inc, hp, hnot, skip_video_frame, hd, const_iterator.reset]

theorem reachable_invariant (file : VideoFile) (r : VideoReader) (it : const_iterator)
    (h : Reachable file r it) :
    (it.m_parent = none ∧ it.m_current_frame = SIZE_MAX) ∨
    (it.m_parent = some r ∧ it.m_current_frame ≤ r.m_nframes ∧ 1 ≤ r.m_nframes) := by
  induction h with
  | begin =>
    by_cases h0 : r.m_nframes = 0
    · exact Or.inl ⟨(begin_of_zero file r h0).1, (begin_of_zero file r h0).2.1⟩
    · obtain ⟨hp, hcur, -⟩ := begin_of_pos file r (by omega)
      exact Or.inr ⟨hp, by omega, by omega⟩
  | read it data t mem _ ih =>
    rcases read_step file it data t mem with ⟨h1, h2, -⟩ | ⟨h1, h2⟩
    · exact Or.inl ⟨h1, h2⟩
    · rcases ih with ⟨hp, hcur⟩ | ⟨hp, hcur, hpos⟩
      · left
        refine ⟨h1.trans hp, ?_⟩
        rcases h2 with h2 | ⟨p, hp2, -, -⟩
        · exact h2.trans hcur
        · rw [hp] at hp2; exact absurd hp2 (by simp)
      · right
        refine ⟨h1.trans hp, ?_, hpos⟩
        rcases h2 with h2 | ⟨p, hp2, hlt, h2⟩
        · omega
        · rw [hp] at hp2
          cases hp2
          rw [h2]
          exact le_trans (Nat.mod_le _ _) (by omega)
  | advance it _ ih =>
    rcases operator_inc_step file it with ⟨h1, h2, -⟩ | ⟨h1, h2⟩
    · exact Or.inl ⟨h1, h2⟩
    · rcases ih with ⟨hp, hcur⟩ | ⟨hp, hcur, hpos⟩
      · left
        refine ⟨h1.trans hp, ?_⟩
        rcases h2 with h2 | ⟨p, hp2, -, -⟩
        · exact h2.trans hcur
        · rw [hp] at hp2; exact absurd hp2 (by simp)
      · right
        refine ⟨h1.trans hp, ?_, hpos⟩
        rcases h2 with h2 | ⟨p, hp2, hlt, h2⟩
        · omega
        · rw [hp] at hp2
          cases hp2
          rw [h2]
          exact le_trans (Nat.mod_le _ _) (by omega)

theorem reachable_operator_add_assign (file : VideoFile) (r : VideoReader) :
    ∀ (k : Nat) (it : const_iterator), Reachable file r it →
      Reachable file r (const_iterator.operator_add_assign file k it).2 := by
  intro k
  induction k with
  | zero => intro it h; simpa [const_iterator.operator_add_assign] using h
  | succ k ih =>
    intro it h
    have h1 := Reachable.advance it h
    rw [const_iterator.operator_add_assign]
    rcases hinc : const_iterator.operator_inc file it with ⟨o, it1⟩
    rw [hinc] at h1
    cases o with
    | returned v => exact ih it1 h1
    | raised e => exact h1

/-! ## Exhausted iterators and equality -/

/-- C11: for every iterator without a parent (the Exhausted state: `end()`, a
reset iterator, `begin()` of a zero-frame reader), `operator++` throws the
already-reached-its-end `std::runtime_error` and leaves the iterator as it
was, and `read`, for every buffer and either value of `throw_on_error`, throws
the same error and leaves iterator and memory as they were. -/
theorem exhausted_use_raises (file : VideoFile) (it : const_iterator)
    (hp : it.m_parent = none) :
    const_iterator.operator_inc file it =
      (Outcome.raised (Exception.runtime_error Message.already_reached_end), it) ∧
    ∀ (data : interface) (throw_on_error : Bool) (mem : Memory),
      const_iterator.read file it data throw_on_error mem =
        { result := Outcome.raised (Exception.runtime_error Message.already_reached_end),
          it := it, mem := mem } := by
  constructor
  · simp [const_iterator.operator_inc, hp]
  · intro data t mem
    simp [const_iterator.read, hp]

/-- Witness of C11: `end()` of a two-frame reader, advanced, and `begin()` of a
zero-frame reader, read into a float64 buffer in strict mode. -/
theorem exhausted_use_raises_witness :
    ((reader_1x1 2).end_).m_parent = none ∧
    ((reader_1x1 0).begin healthy_file).m_parent = none ∧
    const_iterator.operator_inc healthy_file (reader_1x1 2).end_ =
      (Outcome.raised (Exception.runtime_error Message.already_reached_end),
        (reader_1x1 2).end_) ∧
    const_iterator.read healthy_file ((reader_1x1 0).begin healthy_file) float_buffer true
        zero_memory =
      { result := Outcome.raised (Exception.runtime_error Message.already_reached_end),
        it := (reader_1x1 0).begin healthy_file, mem := zero_memory } :=
  ⟨by decide, by decide,
    (exhausted_use_raises healthy_file (reader_1x1 2).end_ (by decide)).1,
    (exhausted_use_raises healthy_file ((reader_1x1 0).begin healthy_file) (by decide)).2
      float_buffer true zero_memory⟩

/-- C12: `operator==` holds exactly when the two iterators point to the same
parent object (or both to none) and have the same cursor value; `operator!=`
is its negation; and an iterator without a parent, `end()` among them, never
compares equal, on either side, to an iterator that has a parent, whatever
the cursor values. -/
theorem operator_eq_same_parent_and_cursor (a b : const_iterator) :
    (const_iterator.operator_eq a b = true ↔
      a.m_parent.map VideoReader.addr = b.m_parent.map VideoReader.addr ∧
        a.m_current_frame = b.m_current_frame) ∧
    const_iterator.operator_ne a b = !(const_iterator.operator_eq a b) ∧
    (∀ p : VideoReader, a.m_parent = some p → b.m_parent = none →
      const_iterator.operator_eq a b = false ∧ const_iterator.operator_eq b a = false) ∧
    (∀ (p r : VideoReader), a.m_parent = some p →
      const_iterator.operator_eq a r.end_ = false ∧
      const_iterator.operator_eq r.end_ a = false ∧
      const_iterator.operator_ne a r.end_ = true) := by
  refine ⟨?_, rfl, ?_, ?_⟩
  · simp [const_iterator.operator_eq, same_parent]
  · intro p hp hb
    simp [const_iterator.operator_eq, same_parent, hp, hb]
  · intro p r hp
    simp [const_iterator.operator_eq, const_iterator.operator_ne, same_parent, hp,
      VideoReader.end_, const_iterator.default]

/-- C13 (counterexample): two reader objects at distinct addresses over the
healthy one-frame 1x1 video; the iterator of each, advanced twice from
`begin()`, has been reset, and the two compare equal. -/
theorem exhausted_iterators_of_distinct_readers_equal :
    (reader_1x1 1).addr ≠ (other_reader_1x1 1).addr ∧
    Reachable healthy_file (reader_1x1 1)
      (const_iterator.operator_add_assign healthy_file 2
        ((reader_1x1 1).begin healthy_file)).2 ∧
    Reachable healthy_file (other_reader_1x1 1)
      (const_iterator.operator_add_assign healthy_file 2
        ((other_reader_1x1 1).begin healthy_file)).2 ∧
    const_iterator.operator_eq
      (const_iterator.operator_add_assign healthy_file 2
        ((reader_1x1 1).begin healthy_file)).2
      (const_iterator.operator_add_assign healthy_file 2
        ((other_reader_1x1 1).begin healthy_file)).2 = true :=
  ⟨by decide, reachable_operator_add_assign _ _ 2 _ Reachable.begin,
    reachable_operator_add_assign _ _ 2 _ Reachable.begin, by decide⟩

/-- C13 (amended): for two reader objects at distinct addresses, an iterator
reachable from `begin()` of the first and an iterator reachable from `begin()`
of the second by any sequence of read and advance calls compare equal exactly
when both have lost their parent (both are Exhausted); while one of them still
has a parent, `i1 == i2` is false. -/
theorem distinct_readers_equal_iff_exhausted (file1 file2 : VideoFile) (r1 r2 : VideoReader)
    (i1 i2 : const_iterator) (h1 : Reachable file1 r1 i1) (h2 : Reachable file2 r2 i2)
    (hne : r1.addr ≠ r2.addr) :
    const_iterator.operator_eq i1 i2 = true ↔ (i1.m_parent = none ∧ i2.m_parent = none) := by
  rcases reachable_invariant file1 r1 i1 h1 with ⟨hp1, hc1⟩ | ⟨hp1, -, -⟩ <;>
    rcases reachable_invariant file2 r2 i2 h2 with ⟨hp2, hc2⟩ | ⟨hp2, -, -⟩ <;>
    simp [const_iterator.operator_eq, same_parent, hp1, hp2, *]

/-- Witness of C13 (amended): the fresh iterators of two reader objects over
the healthy two-frame 1x1 video. -/
theorem distinct_readers_equal_iff_exhausted_witness :
    (reader_1x1 2).addr ≠ (other_reader_1x1 2).addr ∧
    (const_iterator.operator_eq ((reader_1x1 2).begin healthy_file)
        ((other_reader_1x1 2).begin healthy_file) = true ↔
      (((reader_1x1 2).begin healthy_file).m_parent = none ∧
        ((other_reader_1x1 2).begin healthy_file).m_parent = none)) :=
  ⟨by decide,
    distinct_readers_equal_iff_exhausted healthy_file healthy_file (reader_1x1 2)
      (other_reader_1x1 2) _ _ Reachable.begin Reachable.begin (by decide)⟩

/-- C14 (counterexample): on the healthy one-frame 1x1 video the state reached
from `begin()` by one `read` has its parent and cursor == frame_count. -/
theorem reachable_active_at_frame_count :
    Reachable healthy_file (reader_1x1 1) iterator_after_last_frame ∧
    iterator_after_last_frame.m_parent = some (reader_1x1 1) ∧
    iterator_after_last_frame.m_current_frame = (reader_1x1 1).m_nframes :=
  ⟨Reachable.read _ _ _ _ Reachable.begin, by decide, by decide⟩

/-- C14 (amended): every iterator state reachable from `begin()` through any
sequence of read and advance calls is either Exhausted (no parent, cursor ==
SIZE_MAX) or has the reader as parent and 0 <= cursor <= frame_count. -/
theorem reachable_exhausted_or_within_frame_count (file : VideoFile) (r : VideoReader)
    (it : const_iterator) (h : Reachable file r it) :
    (it.m_parent = none ∧ it.m_current_frame = SIZE_MAX) ∨
    (it.m_parent = some r ∧ 0 ≤ it.m_current_frame ∧ it.m_current_frame ≤ r.m_nframes) := by
  rcases reachable_invariant file r it h with h1 | ⟨hp, hc, -⟩
  · exact Or.inl h1
  · exact Or.inr ⟨hp, Nat.zero_le _, hc⟩

/-- Witness of C14 (amended): the state of the healthy one-frame 1x1 video
after its only frame has been read. -/
theorem reachable_exhausted_or_within_frame_count_witness :
    (iterator_after_last_frame.m_parent = none ∧
      iterator_after_last_frame.m_current_frame = SIZE_MAX) ∨
    (iterator_after_last_frame.m_parent = some (reader_1x1 1) ∧
      0 ≤ iterator_after_last_frame.m_current_frame ∧
      iterator_after_last_frame.m_current_frame ≤ (reader_1x1 1).m_nframes) :=
  reachable_exhausted_or_within_frame_count healthy_file (reader_1x1 1)
    iterator_after_last_frame (Reachable.read _ _ _ _ Reachable.begin)

/-! ## Opening a reader -/

theorem to_size_t_of_nonneg (z : Int) (h0 : 0 ≤ z) (h1 : z ≤ (SIZE_MAX : Int)) :
    ((to_size_t z : Nat) : Int) = z := by
  have hm : z % ((SIZE_MAX : Int) + 1) = z := Int.emod_eq_of_lt h0 (by omega)
  simp [to_size_t, hm, Int.toNat_of_nonneg h0]

theorem estimated_frames_undeclared :
    estimated_frames info_undeclared (fun x => x) = 7 / 4 := by
  have hd : to_size_t 1750000 = 1750000 := by decide
  simp only [estimated_frames, info_undeclared, hd, AV_TIME_BASE]
  norm_num

theorem double_to_int_seven_quarters : double_to_int (7 / 4) = some 1 := by
  have hf : ⌊(7 / 4 : ℚ)⌋ = 1 := by
    rw [Int.floor_eq_iff]; norm_num
  have hpos : (0 : ℚ) ≤ 7 / 4 := by norm_num
  simp [double_to_int, hf, hpos]

theorem open_undeclared :
    VideoReader.open 4096 "clip.avi" info_undeclared (fun x => x) = some (reader_1x1 1) := by
  have h0 : to_size_t info_undeclared.nb_frames = 0 := by decide
  have hden : info_undeclared.r_frame_rate_den ≠ 0 := by decide
  have h1 : to_size_t 1 = 1 := by decide
  simp [VideoReader.open, h0, hden, estimated_frames_undeclared,
    double_to_int_seven_quarters, h1]
  decide

/-- C15: when `open` returns, the single-frame descriptor is (uint8, rank 3,
shape [3, height, width]) and the bulk descriptor is (uint8, rank 4, shape
[frame_count, 3, height, width]), with height, width and frame_count the
values of the accessors `height()`, `width()` and `numberOfFrames()`; the bulk
shape is the frame shape with frame_count put in front. -/
theorem open_typeinfo (this : Nat) (filename : String) (info : ContainerInfo) (fl : ℚ → ℚ)
    (r : VideoReader) (h : VideoReader.open this filename info fl = some r) :
    r.m_typeinfo_frame.dtype = ElementType.t_uint8 ∧
    r.m_typeinfo_frame.nd = 3 ∧
    r.m_typeinfo_frame.shape = [3, r.height, r.width] ∧
    r.m_typeinfo_video.dtype = ElementType.t_uint8 ∧
    r.m_typeinfo_video.nd = 4 ∧
    r.m_typeinfo_video.shape = [r.numberOfFrames, 3, r.height, r.width] ∧
    r.m_typeinfo_video.shape = r.numberOfFrames :: r.m_typeinfo_frame.shape := by
  simp only [VideoReader.open, Option.map_eq_some'] at h
  obtain ⟨n, -, rfl⟩ := h
  simp [typeinfo.update_strides, VideoReader.height, VideoReader.width,
    VideoReader.numberOfFrames]

/-- Witness of C15: a 1x1 container that declares two frames opens as the
two-frame reader of the worked instances. -/
theorem open_typeinfo_witness :
    VideoReader.open 4096 "clip.avi" (info_1x1 2) (fun x => x) = some (reader_1x1 2) ∧
    (reader_1x1 2).m_typeinfo_frame.shape = [3, (reader_1x1 2).height, (reader_1x1 2).width] ∧
    (reader_1x1 2).m_typeinfo_video.shape =
      [(reader_1x1 2).numberOfFrames, 3, (reader_1x1 2).height, (reader_1x1 2).width] :=
  ⟨by decide,
    (open_typeinfo 4096 "clip.avi" (info_1x1 2) (fun x => x) (reader_1x1 2) (by decide)).2.2.1,
    (open_typeinfo 4096 "clip.avi" (info_1x1 2) (fun x => x) (reader_1x1 2)
      (by decide)).2.2.2.2.2.1⟩

/-- C16 (counterexample): a container that declares no frame count, at 1 frame
per second over 1.75 seconds (every intermediate value is a double, so the
arithmetic is exact): `open` sets frame_count to 1, the product 1.75 truncated,
where rounding to the nearest integer gives 2. -/
theorem open_truncates_estimate :
    info_undeclared.nb_frames = 0 ∧
    (VideoReader.open 4096 "clip.avi" info_undeclared (fun x => x)).map
      VideoReader.numberOfFrames = some 1 ∧
    spec_estimated_frames info_undeclared = 2 := by
  refine ⟨rfl, ?_, ?_⟩
  · have h0 : to_size_t info_undeclared.nb_frames = 0 := by decide
    have hden : info_undeclared.r_frame_rate_den ≠ 0 := by decide
    have h1 : to_size_t 1 = 1 := by decide
    simp [VideoReader.open, h0, hden, estimated_frames_undeclared,
      double_to_int_seven_quarters, h1, VideoReader.numberOfFrames]
  · simp only [spec_estimated_frames, info_undeclared]
    rw [round_eq, Int.floor_eq_iff]
    norm_num

/-- C16 (amended): when `open` returns, frame_count equals the declared
nb_frames whenever that is > 0 (and fits `size_t`); when the container declares
none (nb_frames == 0) and the double `framerate * duration / AV_TIME_BASE` is
not negative, frame_count is that double truncated, the largest integer not
above it, not the nearest one; and in exact arithmetic that double is
r_frame_rate times the duration in seconds. -/
theorem open_frame_count (this : Nat) (filename : String) (info : ContainerInfo) (fl : ℚ → ℚ)
    (r : VideoReader) (h : VideoReader.open this filename info fl = some r) :
    (0 < info.nb_frames → info.nb_frames ≤ (SIZE_MAX : Int) →
      (r.numberOfFrames : Int) = info.nb_frames) ∧
    (info.nb_frames = 0 → 0 ≤ estimated_frames info fl →
      (r.numberOfFrames : Int) = ⌊estimated_frames info fl⌋) ∧
    ((∀ x, fl x = x) → 0 ≤ info.duration → info.duration ≤ (SIZE_MAX : Int) →
      estimated_frames info fl =
        ((info.r_frame_rate_num : ℚ) / (info.r_frame_rate_den : ℚ)) *
          ((info.duration : ℚ) / 1000000)) := by
  simp only [VideoReader.open, Option.map_eq_some'] at h
  obtain ⟨n, hn, rfl⟩ := h
  refine ⟨?_, ?_, ?_⟩
  · intro hpos hle
    have hcast := to_size_t_of_nonneg info.nb_frames (by omega) hle
    have hgt : to_size_t info.nb_frames > 0 := by omega
    simp only [hgt, if_true] at hn
    by_cases hd : to_size_t info.duration = 0
    · simp [hd] at hn
    · simp only [hd, if_false, Option.some.injEq] at hn
      simp only [VideoReader.numberOfFrames]
      rw [← hn]; exact hcast
  · intro h0 hx
    have hz : to_size_t info.nb_frames = 0 := by rw [h0]; decide
    simp only [hz, gt_iff_lt, lt_self_iff_false, if_false] at hn
    by_cases hden : info.r_frame_rate_den = 0
    · simp [hden] at hn
    · simp only [hden, if_false, Option.map_eq_some'] at hn
      obtain ⟨z, hz1, hz2⟩ := hn
      simp only [double_to_int, hx, if_true] at hz1
      by_cases hr : -2147483648 ≤ ⌊estimated_frames info fl⌋ ∧
          ⌊estimated_frames info fl⌋ ≤ 2147483647
      · simp only [hr, and_self, if_true, Option.some.injEq] at hz1
        have hnn : 0 ≤ ⌊estimated_frames info fl⌋ := Int.floor_nonneg.mpr hx
        have hsm : ⌊estimated_frames info fl⌋ ≤ (SIZE_MAX : Int) := by
          have : (SIZE_MAX : Int) = 18446744073709551615 := by decide
          omega
        simp only [VideoReader.numberOfFrames]
        rw [← hz2, ← hz1]
        exact to_size_t_of_nonneg _ hnn hsm
      · simp [hr] at hz1
  · intro hfl h0 hle
    have hd := to_size_t_of_nonneg info.duration h0 hle
    have hq : ((to_size_t info.duration : Nat) : ℚ) = (info.duration : ℚ) := by
      exact_mod_cast hd
    simp only [estimated_frames, hfl, hq, AV_TIME_BASE]
    push_cast
    ring

/-- Witness of C16 (amended): the container that declares two frames, and the
one that declares none at 1 frame per second over 1.75 seconds, which opens
with one frame. -/
theorem open_frame_count_witness :
    VideoReader.open 4096 "clip.avi" (info_1x1 2) (fun x => x) = some (reader_1x1 2) ∧
    ((reader_1x1 2).numberOfFrames : Int) = (info_1x1 2).nb_frames ∧
    VideoReader.open 4096 "clip.avi" info_undeclared (fun x => x) = some (reader_1x1 1) ∧
    ((reader_1x1 1).numberOfFrames : Int) = ⌊estimated_frames info_undeclared (fun x => x)⌋ :=
  ⟨by decide,
    (open_frame_count 4096 "clip.avi" (info_1x1 2) (fun x => x) (reader_1x1 2) (by decide)).1
      (by decide) (by decide),
    open_undeclared,
    (open_frame_count 4096 "clip.avi" info_undeclared (fun x => x) (reader_1x1 1)
      open_undeclared).2.1 rfl (by rw [estimated_frames_undeclared]; norm_num)⟩

/-! ## Writing a frame -/

theorem foldl_untouched {ι : Type} (step : Memory → ι → Memory) (a : Nat) :
    ∀ (l : List ι) (mem : Memory), (∀ i ∈ l, ∀ m, step m i a = m a) →
      (l.foldl step mem) a = mem a := by
  intro l
  induction l with
  | nil => intro mem _; rfl
  | cons i l ih =>
    intro mem h
    rw [List.foldl_cons, ih (step mem i) (fun j hj m => h j (List.mem_cons_of_mem _ hj) m)]
    exact h i (List.mem_cons_self _ _) mem

theorem foldl_hit {ι : Type} (step : Memory → ι → Memory) (a v : Nat) (i0 : ι) :
    ∀ (l : List ι) (mem : Memory), i0 ∈ l → l.Nodup → (∀ m, step m i0 a = v) →
      (∀ i ∈ l, i ≠ i0 → ∀ m, step m i a = m a) → (l.foldl step mem) a = v := by
  intro l
  induction l with
  | nil => intro mem hmem; simp at hmem
  | cons i l ih =>
    intro mem hmem hnd hhit hmiss
    rw [List.foldl_cons]
    rw [List.nodup_cons] at hnd
    by_cases hi : i = i0
    · subst hi
      rw [foldl_untouched step a l (step mem i) (fun j hj m =>
        hmiss j (List.mem_cons_of_mem _ hj) (fun hji => hnd.1 (hji ▸ hj)) m)]
      exact hhit mem
    · have hmem2 : i0 ∈ l := by
        rcases List.mem_cons.mp hmem with h | h
        · exact absurd h.symm hi
        · exact h
      exact ih (step mem i) hmem2 hnd.2 hhit
        (fun j hj hne m => hmiss j (List.mem_cons_of_mem _ hj) hne m)

theorem write_other (m : Memory) (a b v : Nat) (h : a ≠ b) : m.write b v a = m a := by
  simp [Memory.write, h]

theorem size_t_to_int_of_le (n : Nat) (h : n ≤ 2147483647) : size_t_to_int n = (n : Int) := by
  have h1 : n % 4294967296 = n := Nat.mod_eq_of_lt (by omega)
  simp only [size_t_to_int, h1]
  rw [if_pos (by omega)]

theorem write_at_same (m : Memory) (addr : Int) (a v : Nat) (h : (a : Int) = addr) :
    m.write_at addr v a = v := by
  subst h
  simp [Memory.write_at, Memory.write]

theorem write_at_other (m : Memory) (addr : Int) (a v : Nat) (h : (a : Int) ≠ addr) :
    m.write_at addr v a = m a := by
  unfold Memory.write_at
  split
  · rename_i h0
    apply write_other
    intro heq
    apply h
    rw [heq]
    exact Int.toNat_of_nonneg h0
  · rfl

theorem transpose_assign_element (mem : Memory) (ptr : Nat) (info : typeinfo) (rgb : RGBArray)
    (c y x a : Nat) (hc : c < (dst_shape info 0).toNat) (hy : y < (dst_shape info 1).toNat)
    (hx : x < (dst_shape info 2).toNat)
    (ha : (a : Int) = dst_address ptr info c y x)
    (hinj : ∀ c2 y2 x2, c2 < (dst_shape info 0).toNat → y2 < (dst_shape info 1).toNat →
      x2 < (dst_shape info 2).toNat →
      dst_address ptr info c2 y2 x2 = dst_address ptr info c y x →
      c2 = c ∧ y2 = y ∧ x2 = x) :
    transpose_assign mem ptr info rgb a = rgb.data.getD ((y * rgb.width + x) * 3 + c) 0 := by
  unfold transpose_assign
  apply foldl_hit _ _ _ c _ _ (List.mem_range.mpr hc) (List.nodup_range _)
  · intro m
    apply foldl_hit _ _ _ y _ _ (List.mem_range.mpr hy) (List.nodup_range _)
    · intro m1
      apply foldl_hit _ _ _ x _ _ (List.mem_range.mpr hx) (List.nodup_range _)
      · intro m2
        exact write_at_same _ _ _ _ ha
      · intro x2 hx2 hne m2
        apply write_at_other
        intro heq
        exact hne (hinj c y x2 hc hy (List.mem_range.mp hx2) (by rw [← heq, ha])).2.2
    · intro y2 hy2 hne m1
      apply foldl_untouched
      intro x2 hx2 m2
      apply write_at_other
      intro heq
      exact hne (hinj c y2 x2 hc (List.mem_range.mp hy2) (List.mem_range.mp hx2)
        (by rw [← heq, ha])).2.1
  · intro c2 hc2 hne m
    apply foldl_untouched
    intro y2 hy2 m1
    apply foldl_untouched
    intro x2 hx2 m2
    apply write_at_other
    intro heq
    exact hne (hinj c2 y2 x2 (List.mem_range.mp hc2) (List.mem_range.mp hy2)
      (List.mem_range.mp hx2) (by rw [← heq, ha])).1

theorem transpose_assign_outside (mem : Memory) (ptr : Nat) (info : typeinfo) (rgb : RGBArray)
    (a : Nat)
    (hout : ∀ c y x, c < (dst_shape info 0).toNat → y < (dst_shape info 1).toNat →
      x < (dst_shape info 2).toNat → (a : Int) ≠ dst_address ptr info c y x) :
    transpose_assign mem ptr info rgb a = mem a := by
  unfold transpose_assign
  apply foldl_untouched
  intro c hc m
  apply foldl_untouched
  intro y hy m1
  apply foldl_untouched
  intro x hx m2
  apply write_at_other
  exact hout c y x (List.mem_range.mp hc) (List.mem_range.mp hy) (List.mem_range.mp hx)

theorem dst_shape_of_le (info : typeinfo) (i : Nat) (h : info.shape.getD i 0 ≤ 2147483647) :
    (dst_shape info i).toNat = info.shape.getD i 0 := by
  rw [dst_shape, size_t_to_int_of_le _ h]
  exact Int.toNat_ofNat _

theorem dst_address_of_le (ptr : Nat) (info : typeinfo) (c y x : Nat)
    (h0 : info.stride.getD 0 0 ≤ 2147483647) (h1 : info.stride.getD 1 0 ≤ 2147483647)
    (h2 : info.stride.getD 2 0 ≤ 2147483647) :
    dst_address ptr info c y x =
      ((ptr + c * info.stride.getD 0 0 + y * info.stride.getD 1 0
        + x * info.stride.getD 2 0 : Nat) : Int) := by
  simp only [dst_address, dst_stride, size_t_to_int_of_le _ h0, size_t_to_int_of_le _ h1,
    size_t_to_int_of_le _ h2]
  push_cast
  rfl

theorem read_returned_true (file : VideoFile) (it : const_iterator) (data : interface)
    (t : Bool) (mem : Memory)
    (h : (const_iterator.read file it data t mem).result = Outcome.returned true) :
    (const_iterator.read file it data t mem).mem =
      transpose_assign mem data.ptr data.type
        (const_iterator.read file it data t mem).it.m_rgb_array ∧
    (const_iterator.read file it data t mem).it.m_rgb_array.width = it.m_rgb_array.width := by
  cases hp : it.m_parent with
  | none => simp [const_iterator.read, hp] at h
  | some p =>
    by_cases hge : p.m_nframes ≤ it.m_current_frame
    · rw [read_past_end file it p data t mem hp hge] at h
      cases t <;> simp at h
    · have hlt : it.m_current_frame < p.m_nframes := by omega
      have hnot : ¬ (p.numberOfFrames ≤ it.m_current_frame) := by
        simp [VideoReader.numberOfFrames]; exact hlt
      cases hc : data.type.is_compatible p.m_typeinfo_frame with
      | false => simp [const_iterator.read, hp, hnot, hc] at h
      | true =>
        by_cases hd : (demux file it.m_format_context).1 = DecodeOutcome.Ok
        · cases hctx : it.m_format_context with
          | none => simp [demux, hctx] at hd
          | some c =>
            rw [hctx] at hd
            rw [read_of_ok file it p data t mem c hp hlt hc hctx (by simpa [demux] using hd)]
            exact ⟨rfl, rfl⟩
        · rw [read_of_fail file it p data t mem hp hlt hc hd] at h
          cases t <;> simp at h

/-- C17 (counterexample): the fresh iterator of the healthy one-frame 1x1 video
read into a buffer of shape (3, 1, 1) whose strides are (0, 0, 0). The read
succeeds; the three channels 0, 100, 200 of the picture all go to the base
address, which ends up holding 200: the element addressed by (0, 0, 0) is not
element (0, 0, 0) of the scratch array, which is 0 (and no single byte can
hold both that and element (0, 0, 1), which is 100). -/
theorem read_overlapping_strides_loses_elements :
    overlapping_buffer.type.shape = [3, 1, 1] ∧
    overlapping_buffer.type.stride = [0, 0, 0] ∧
    (const_iterator.read healthy_file ((reader_1x1 1).begin healthy_file) overlapping_buffer
      true zero_memory).result = Outcome.returned true ∧
    (const_iterator.read healthy_file ((reader_1x1 1).begin healthy_file) overlapping_buffer
      true zero_memory).mem (overlapping_buffer.ptr + 0 * 0 + 0 * 0 + 0 * 0) = 200 ∧
    (const_iterator.read healthy_file ((reader_1x1 1).begin healthy_file) overlapping_buffer
      true zero_memory).it.m_rgb_array.data.getD ((0 * 1 + 0) * 3 + 0) 0 = 0 ∧
    (const_iterator.read healthy_file ((reader_1x1 1).begin healthy_file) overlapping_buffer
      true zero_memory).it.m_rgb_array.data.getD ((0 * 1 + 0) * 3 + 1) 0 = 100 := by
  decide

/-- C17 (amended): for a successful `read` into a destination of declared shape
(3, H, W) and caller-declared strides (s0, s1, s2), where H, W, s0, s1 and s2
are at most INT_MAX = 2147483647 (the code stores them in `int`s) and distinct
index triples address distinct bytes, the scratch array being H x W x 3: the
byte addressed by (c, y, x) through those strides equals element (y, x, c) of
the packed row-major scratch array, for every c < 3, y < H, x < W. -/
theorem read_transposes_into_strides (file : VideoFile) (it : const_iterator)
    (data : interface) (throw_on_error : Bool) (mem : Memory) (H W s0 s1 s2 : Nat)
    (hres : (const_iterator.read file it data throw_on_error mem).result =
      Outcome.returned true)
    (hshape : data.type.shape.getD 0 0 = 3 ∧ data.type.shape.getD 1 0 = H ∧
      data.type.shape.getD 2 0 = W)
    (hstride : data.type.stride.getD 0 0 = s0 ∧ data.type.stride.getD 1 0 = s1 ∧
      data.type.stride.getD 2 0 = s2)
    (hw : it.m_rgb_array.width = W)
    (hint : H ≤ 2147483647 ∧ W ≤ 2147483647 ∧ s0 ≤ 2147483647 ∧ s1 ≤ 2147483647 ∧
      s2 ≤ 2147483647)
    (hinj : ∀ c y x c2 y2 x2, c < 3 → y < H → x < W → c2 < 3 → y2 < H → x2 < W →
      c * s0 + y * s1 + x * s2 = c2 * s0 + y2 * s1 + x2 * s2 → c = c2 ∧ y = y2 ∧ x = x2) :
    ∀ c y x, c < 3 → y < H → x < W →
      (const_iterator.read file it data throw_on_error mem).mem
          (data.ptr + c * s0 + y * s1 + x * s2) =
        (const_iterator.read file it data throw_on_error mem).it.m_rgb_array.data.getD
          ((y * W + x) * 3 + c) 0 := by
  intro c y x hc hy hx
  obtain ⟨hmem, hwidth⟩ := read_returned_true file it data throw_on_error mem hres
  obtain ⟨h0, h1, h2⟩ := hshape
  obtain ⟨g0, g1, g2⟩ := hstride
  obtain ⟨hH, hW, b0, b1, b2⟩ := hint
  have e0 : (dst_shape data.type 0).toNat = 3 := by
    rw [dst_shape_of_le _ _ (by rw [h0]; omega), h0]
  have e1 : (dst_shape data.type 1).toNat = H := by
    rw [dst_shape_of_le _ _ (by rw [h1]; exact hH), h1]
  have e2 : (dst_shape data.type 2).toNat = W := by
    rw [dst_shape_of_le _ _ (by rw [h2]; exact hW), h2]
  have haddr : ∀ c2 y2 x2 : Nat, dst_address data.ptr data.type c2 y2 x2 =
      ((data.ptr + c2 * s0 + y2 * s1 + x2 * s2 : Nat) : Int) := by
    intro c2 y2 x2
    rw [dst_address_of_le _ _ _ _ _ (by rw [g0]; exact b0) (by rw [g1]; exact b1)
      (by rw [g2]; exact b2), g0, g1, g2]
  rw [hmem, ← hw, ← hwidth]
  apply transpose_assign_element _ _ _ _ c y x
  · rw [e0]; exact hc
  · rw [e1]; exact hy
  · rw [e2]; exact hx
  · exact (haddr c y x).symm
  · intro c2 y2 x2 hc2 hy2 hx2 heq
    rw [e0] at hc2
    rw [e1] at hy2
    rw [e2] at hx2
    rw [haddr, haddr] at heq
    have heq2 : data.ptr + c2 * s0 + y2 * s1 + x2 * s2 = data.ptr + c * s0 + y * s1 + x * s2 :=
      Int.ofNat.inj heq
    obtain ⟨k1, k2, k3⟩ := hinj c2 y2 x2 c y x hc2 hy2 hx2 hc hy hx (by omega)
    exact ⟨k1, k2, k3⟩

/-- Witness of C17 (amended): the fresh iterator of the healthy two-frame 1x1
video read into the packed frame buffer; channel 1 lands one byte after the
base address. -/
theorem read_transposes_into_strides_witness :
    (const_iterator.read healthy_file ((reader_1x1 2).begin healthy_file) frame_buffer true
      zero_memory).result = Outcome.returned true ∧
    (const_iterator.read healthy_file ((reader_1x1 2).begin healthy_file) frame_buffer true
      zero_memory).mem (frame_buffer.ptr + 1 * 1 + 0 * 1 + 0 * 1) =
      (const_iterator.read healthy_file ((reader_1x1 2).begin healthy_file) frame_buffer true
        zero_memory).it.m_rgb_array.data.getD ((0 * 1 + 0) * 3 + 1) 0 :=
  ⟨by decide,
    read_transposes_into_strides healthy_file ((reader_1x1 2).begin healthy_file) frame_buffer
      true zero_memory 1 1 1 1 1 (by decide) (by decide) (by decide) (by decide) (by decide)
      (fun c y x c2 y2 x2 _ hy hx _ hy2 hx2 h => by omega) 1 0 0 (by decide) (by decide)
      (by decide)⟩

/-- C18 (evaluation at the failing input): the healthy one-frame 1x1 video
loaded into a compatible bulk buffer of shape (1, 3, 1, 1) with strides
(6, 2, 1, 1), one padding byte after each channel. `load` returns 1, but it
wrote the frame packed: the byte addressed by (0, 1, 0, 0) through the
caller's strides holds 200, the value of channel 2, where channel 1 of the
decoded picture (0, 100, 200) is 100. -/
theorem load_ignores_bulk_strides :
    (reader_1x1 1).m_typeinfo_video.is_compatible padded_bulk_buffer.type = true ∧
    padded_bulk_buffer.type.stride = [6, 2, 1, 1] ∧
    healthy_file.pixels 0 = [0, 100, 200] ∧
    ((reader_1x1 1).load healthy_file padded_bulk_buffer false zero_memory 3).map
      (fun l => (l.result, l.mem (padded_bulk_buffer.ptr + 0 * 6 + 1 * 2 + 0 * 1 + 0 * 1))) =
      some (Outcome.returned 1, 200) := by
  decide

/-! ## Copies, and skipping against decoding -/

theorem init_forgets_session (file : VideoFile) (parent : VideoReader) (a b : const_iterator)
    (h : a.m_parent = b.m_parent) :
    const_iterator.init file parent a = const_iterator.init file parent b := by
  simp only [const_iterator.init, const_iterator.reset, h]

/-- C19: for every reachable iterator that still has its parent (an Active
iterator, at cursor k <= frame_count) over a healthy stream, the copy
constructor and the assignment to a distinct iterator both yield `begin()` of
the parent advanced k times by `+=`: no advance throws, the copy has the same
parent and cursor k, its fresh session has served exactly k skip calls, and it
compares equal to the original. -/
theorem copy_of_active (file : VideoFile) (r : VideoReader) (other : const_iterator)
    (hreach : Reachable file r other) (hp : other.m_parent = some r)
    (hsz : r.m_nframes ≤ SIZE_MAX)
    (hh : ∀ i, i < r.m_nframes → file.outcome i = DecodeOutcome.Ok) :
    const_iterator.copy file other =
      some (const_iterator.operator_add_assign file other.m_current_frame (r.begin file)) ∧
    (∀ this : const_iterator, const_iterator.assign file this other =
      some (const_iterator.operator_add_assign file other.m_current_frame (r.begin file))) ∧
    other.m_current_frame ≤ r.m_nframes ∧
    (const_iterator.operator_add_assign file other.m_current_frame (r.begin file)).1 =
      Outcome.returned () ∧
    (const_iterator.operator_add_assign file other.m_current_frame (r.begin file)).2.m_parent =
      some r ∧
    (const_iterator.operator_add_assign file other.m_current_frame
      (r.begin file)).2.m_current_frame = other.m_current_frame ∧
    (const_iterator.operator_add_assign file other.m_current_frame
      (r.begin file)).2.m_format_context = some { calls := other.m_current_frame } ∧
    const_iterator.operator_eq
      (const_iterator.operator_add_assign file other.m_current_frame (r.begin file)).2 other
      = true := by
  have hinv : other.m_current_frame ≤ r.m_nframes ∧ 1 ≤ r.m_nframes := by
    rcases reachable_invariant file r other hreach with ⟨hn, -⟩ | ⟨-, hc, hpos⟩
    · rw [hp] at hn; exact absurd hn (by simp)
    · exact ⟨hc, hpos⟩
  obtain ⟨hb1, hb2, hb3⟩ := begin_of_pos file r (by omega)
  obtain ⟨h1, h2, h3, h4⟩ := operator_add_assign_healthy file r hsz hh other.m_current_frame 0
    (r.begin file) (by omega) hb1 hb2 hb3
  rw [Nat.zero_add] at h3 h4
  refine ⟨?_, ?_, hinv.1, h1, h2, h3, h4, ?_⟩
  · simp only [const_iterator.copy, hp]
    rfl
  · intro this
    simp only [const_iterator.assign, hp]
    exact congrArg (fun it => some (const_iterator.operator_add_assign file
      other.m_current_frame it)) (init_forgets_session file r _ _ rfl)
  · simp [const_iterator.operator_eq, same_parent, h2, h3, hp]

/-- Witness of C19: the iterator of the healthy two-frame 1x1 video after one
advance, copied. -/
theorem copy_of_active_witness :
    (const_iterator.operator_inc healthy_file
      ((reader_1x1 2).begin healthy_file)).2.m_parent = some (reader_1x1 2) ∧
    (reader_1x1 2).m_nframes ≤ SIZE_MAX ∧
    const_iterator.copy healthy_file
        (const_iterator.operator_inc healthy_file ((reader_1x1 2).begin healthy_file)).2 =
      some (const_iterator.operator_add_assign healthy_file
        (const_iterator.operator_inc healthy_file
          ((reader_1x1 2).begin healthy_file)).2.m_current_frame
        ((reader_1x1 2).begin healthy_file)) :=
  ⟨by decide, by decide,
    (copy_of_active healthy_file (reader_1x1 2)
      (const_iterator.operator_inc healthy_file ((reader_1x1 2).begin healthy_file)).2
      (Reachable.advance _ Reachable.begin) (by decide) (by decide) (fun _ _ => rfl)).1⟩

/-- C20 (counterexample): on a zero-frame reader (k = 0 = frame_count) the
state after zero advance calls and after zero read calls is `begin()`, which
has no parent and cursor SIZE_MAX, not cursor k = 0. -/
theorem zero_frame_traversal_has_sentinel_cursor :
    (reader_1x1 0).m_nframes = 0 ∧
    (const_iterator.operator_add_assign healthy_file 0
      ((reader_1x1 0).begin healthy_file)).2.m_parent = none ∧
    (const_iterator.operator_add_assign healthy_file 0
      ((reader_1x1 0).begin healthy_file)).2.m_current_frame = SIZE_MAX ∧
    (read_times healthy_file frame_buffer true 0 ((reader_1x1 0).begin healthy_file)
      zero_memory).2.1.m_current_frame = SIZE_MAX ∧
    SIZE_MAX ≠ 0 := by
  decide

/-- C20 (amended): for a healthy stream and every k <= frame_count, k advance
calls from `begin()` all return and k read calls from `begin()` into a
compatible buffer all return true, and the two iterators reached have the same
parent and the same cursor and compare equal; when frame_count >= 1 that
parent is the reader and that cursor is k, and when frame_count == 0 both are
the Exhausted `begin()` (no parent, cursor SIZE_MAX). Every `read` that returns
true leaves the memory it found with one frame assigned through the buffer's
descriptor, every byte outside that frame untouched; `operator++` is given no
memory at all. -/
theorem advance_and_read_traverse_alike (file : VideoFile) (r : VideoReader)
    (data : interface) (t : Bool) (mem : Memory) (k : Nat)
    (hsz : r.m_nframes ≤ SIZE_MAX)
    (hh : ∀ i, i < r.m_nframes → file.outcome i = DecodeOutcome.Ok)
    (hc : data.type.is_compatible r.m_typeinfo_frame = true)
    (hk : k ≤ r.m_nframes) :
    (const_iterator.operator_add_assign file k (r.begin file)).1 = Outcome.returned () ∧
    (read_times file data t k (r.begin file) mem).1 = List.replicate k (Outcome.returned true) ∧
    (const_iterator.operator_add_assign file k (r.begin file)).2.m_parent =
      (read_times file data t k (r.begin file) mem).2.1.m_parent ∧
    (const_iterator.operator_add_assign file k (r.begin file)).2.m_current_frame =
      (read_times file data t k (r.begin file) mem).2.1.m_current_frame ∧
    const_iterator.operator_eq (const_iterator.operator_add_assign file k (r.begin file)).2
      (read_times file data t k (r.begin file) mem).2.1 = true ∧
    (1 ≤ r.m_nframes →
      (const_iterator.operator_add_assign file k (r.begin file)).2.m_parent = some r ∧
      (const_iterator.operator_add_assign file k (r.begin file)).2.m_current_frame = k) ∧
    (r.m_nframes = 0 →
      (const_iterator.operator_add_assign file k (r.begin file)).2.m_parent = none ∧
      (const_iterator.operator_add_assign file k (r.begin file)).2.m_current_frame
        = SIZE_MAX) ∧
    (∀ (it : const_iterator) (data2 : interface) (t2 : Bool) (mem2 : Memory),
      (const_iterator.read file it data2 t2 mem2).result = Outcome.returned true →
      (const_iterator.read file it data2 t2 mem2).mem =
        transpose_assign mem2 data2.ptr data2.type
          (const_iterator.read file it data2 t2 mem2).it.m_rgb_array ∧
      ∀ a : Nat,
        (∀ c y x, c < (dst_shape data2.type 0).toNat → y < (dst_shape data2.type 1).toNat →
          x < (dst_shape data2.type 2).toNat →
          (a : Int) ≠ dst_address data2.ptr data2.type c y x) →
        (const_iterator.read file it data2 t2 mem2).mem a = mem2 a) := by
  have hlast : ∀ (it : const_iterator) (data2 : interface) (t2 : Bool) (mem2 : Memory),
      (const_iterator.read file it data2 t2 mem2).result = Outcome.returned true →
      (const_iterator.read file it data2 t2 mem2).mem =
        transpose_assign mem2 data2.ptr data2.type
          (const_iterator.read file it data2 t2 mem2).it.m_rgb_array ∧
      ∀ a : Nat,
        (∀ c y x, c < (dst_shape data2.type 0).toNat → y < (dst_shape data2.type 1).toNat →
          x < (dst_shape data2.type 2).toNat →
          (a : Int) ≠ dst_address data2.ptr data2.type c y x) →
        (const_iterator.read file it data2 t2 mem2).mem a = mem2 a := by
    intro it data2 t2 mem2 hres
    have hm := (read_returned_true file it data2 t2 mem2 hres).1
    refine ⟨hm, fun a hout => ?_⟩
    rw [hm]
    exact transpose_assign_outside _ _ _ _ a hout
  by_cases h0 : r.m_nframes = 0
  · have hk0 : k = 0 := by omega
    subst hk0
    obtain ⟨hb1, hb2, -⟩ := begin_of_zero file r h0
    refine ⟨?_, ?_, ?_, ?_, ?_, ?_, ?_, hlast⟩ <;>
      simp [const_iterator.operator_add_assign, read_times, const_iterator.operator_eq,
        same_parent, hb1, hb2, h0]
  · obtain ⟨hb1, hb2, hb3⟩ := begin_of_pos file r (by omega)
    obtain ⟨a1, a2, a3, -⟩ := operator_add_assign_healthy file r hsz hh k 0 (r.begin file)
      (by omega) hb1 hb2 hb3
    obtain ⟨b1, b2, b3⟩ := read_times_healthy file r data t hsz hh hc k 0 (r.begin file) mem
      (by omega) hb1 hb2 hb3
    rw [Nat.zero_add] at a3 b3
    refine ⟨a1, b1, a2.trans b2.symm, a3.trans b3.symm, ?_, fun _ => ⟨a2, a3⟩,
      fun h => absurd h h0, hlast⟩
    simp [const_iterator.operator_eq, same_parent, a2, b2, a3, b3]

/-- Witness of C20 (amended): two advances against two reads on the healthy
two-frame 1x1 video. -/
theorem advance_and_read_traverse_alike_witness :
    (reader_1x1 2).m_nframes ≤ SIZE_MAX ∧
    frame_buffer.type.is_compatible (reader_1x1 2).m_typeinfo_frame = true ∧
    const_iterator.operator_eq
      (const_iterator.operator_add_assign healthy_file 2
        ((reader_1x1 2).begin healthy_file)).2
      (read_times healthy_file frame_buffer true 2 ((reader_1x1 2).begin healthy_file)
        zero_memory).2.1 = true :=
  ⟨by decide, by decide,
    (advance_and_read_traverse_alike healthy_file (reader_1x1 2) frame_buffer true zero_memory 2
      (by decide) (fun _ _ => rfl) (by decide) (by decide)).2.2.2.2.1⟩

/-! ## Reset, termination of the load loop, copies of `end()` -/

/-- C21: `reset` is total, and on every iterator state it yields the Exhausted
sentinel state: no parent, cursor == SIZE_MAX, every session handle empty;
`reset(reset(s)) = reset(s)`; it is the statement-by-statement `reset`, whose
releases come in the order frame, scaler, codec context, codec, format
context: the scaler before the codec context, the codec context before the
format context. -/
theorem reset_idempotent_and_ordered (s : const_iterator) :
    s.reset.m_parent = none ∧ s.reset.m_current_frame = SIZE_MAX ∧
    s.reset.m_format_context = none ∧ s.reset.m_codec_context = none ∧
    s.reset.m_codec = false ∧ s.reset.m_swscaler = false ∧
    s.reset.m_context_frame = false ∧
    s.reset.reset = s.reset ∧
    s.reset = s.reset_in_order ∧
    reset_releases.indexOf Handle.swscaler < reset_releases.indexOf Handle.codec_context ∧
    reset_releases.indexOf Handle.codec_context <
      reset_releases.indexOf Handle.format_context ∧
    const_iterator.operator_eq s.reset const_iterator.default = true := by
  refine ⟨rfl, rfl, rfl, rfl, rfl, rfl, rfl, rfl, rfl, by decide, by decide, ?_⟩
  simp [const_iterator.operator_eq, same_parent, const_iterator.reset, const_iterator.default]

theorem load_loop_broken :
    ∀ (fuel j ptr frames_read reads : Nat) (mem : Memory) (it : const_iterator),
      it.m_parent = some (reader_1x1 1) → it.m_current_frame = 0 →
      it.m_format_context = some { calls := j } →
      load_loop broken_file (reader_1x1 1) false fuel it ptr frames_read mem reads = none := by
  intro fuel
  induction fuel with
  | zero => intro j ptr fr reads mem it _ _ _; rfl
  | succ fuel ih =>
    intro j ptr fr reads mem it hp hcur hctx
    have hlt : it.m_current_frame < (reader_1x1 1).m_nframes := by rw [hcur]; decide
    have hfail : (demux broken_file it.m_format_context).1 ≠ DecodeOutcome.Ok := by
      rw [hctx]; simp [demux, broken_file]
    have hread := read_of_fail broken_file it (reader_1x1 1)
      { type := (reader_1x1 1).m_typeinfo_frame, ptr := ptr } false mem hp hlt
      (is_compatible_self _) hfail
    have hnext := ih (j + 1) ptr fr (reads + 1) mem
      { it with m_format_context := some { calls := j + 1 } } hp hcur rfl
    simp only [load_loop, operator_ne_end_of_parent it _ _ hp, if_true, hread]
    simpa [hctx, demux] using hnext

/-- C24 (evaluation at the failing input): a one-frame 1x1 video whose every
demux call fails, loaded with `throw_on_error = false` into a compatible
buffer. Whatever the fuel, the loop has not ended: each `read` returns false
and leaves the iterator Active at cursor 0, so `load` never returns and the
number of `read` calls is unbounded. -/
theorem load_nonstrict_never_returns_on_broken_stream :
    ∀ fuel : Nat,
      (reader_1x1 1).load broken_file (bulk_buffer 1) false zero_memory fuel = none := by
  intro fuel
  have hc : (reader_1x1 1).m_typeinfo_video.is_compatible (bulk_buffer 1).type = true := by
    decide
  obtain ⟨hp, hcur, hctx⟩ := begin_of_pos broken_file (reader_1x1 1) (by decide)
  simp only [VideoReader.load, hc, Bool.not_true, Bool.false_eq_true, if_false]
  exact load_loop_broken fuel 0 _ 0 0 zero_memory _ hp hcur hctx

/-- C25 (evaluation at the failing input): copy construction from `end()` and
assignment of `end()` to a fresh iterator. Both call `init()` with a null
`m_parent`, which `init()` dereferences: the behaviour is undefined. -/
theorem copy_of_end_is_undefined :
    ((reader_1x1 2).end_).m_parent = none ∧
    const_iterator.copy healthy_file (reader_1x1 2).end_ = none ∧
    const_iterator.assign healthy_file ((reader_1x1 2).begin healthy_file)
      (reader_1x1 2).end_ = none := by
  decide

/-! ## The representation invariant -/

theorem init_invariant (file : VideoFile) (r : VideoReader) (it : const_iterator)
    (hp : it.m_parent = some r) :
    ((const_iterator.init file r it).m_parent = none ∧
      (const_iterator.init file r it).m_current_frame = SIZE_MAX) ∨
    ((const_iterator.init file r it).m_parent = some r ∧
      (const_iterator.init file r it).m_current_frame ≤ r.m_nframes) := by
  by_cases h0 : r.m_nframes = 0
  · left
    simp [const_iterator.init, VideoReader.numberOfFrames, h0, const_iterator.reset]
  · right
    simp [const_iterator.init, VideoReader.numberOfFrames, h0, hp]

theorem operator_inc_invariant (file : VideoFile) (r : VideoReader) (it : const_iterator)
    (h : (it.m_parent = none ∧ it.m_current_frame = SIZE_MAX) ∨
      (it.m_parent = some r ∧ it.m_current_frame ≤ r.m_nframes)) :
    ((const_iterator.operator_inc file it).2.m_parent = none ∧
      (const_iterator.operator_inc file it).2.m_current_frame = SIZE_MAX) ∨
    ((const_iterator.operator_inc file it).2.m_parent = some r ∧
      (const_iterator.operator_inc file it).2.m_current_frame ≤ r.m_nframes) := by
  rcases operator_inc_step file it with ⟨h1, h2, -⟩ | ⟨h1, h2⟩
  · exact Or.inl ⟨h1, h2⟩
  · rcases h with ⟨hp, hcur⟩ | ⟨hp, hcur⟩
    · left
      refine ⟨h1.trans hp, ?_⟩
      rcases h2 with h2 | ⟨p, hp2, -, -⟩
      · exact h2.trans hcur
      · rw [hp] at hp2; exact absurd hp2 (by simp)
    · right
      refine ⟨h1.trans hp, ?_⟩
      rcases h2 with h2 | ⟨p, hp2, hlt, h2⟩
      · omega
      · rw [hp] at hp2
        cases hp2
        rw [h2]
        exact le_trans (Nat.mod_le _ _) (by omega)

theorem operator_add_assign_invariant (file : VideoFile) (r : VideoReader) :
    ∀ (k : Nat) (it : const_iterator),
      ((it.m_parent = none ∧ it.m_current_frame = SIZE_MAX) ∨
        (it.m_parent = some r ∧ it.m_current_frame ≤ r.m_nframes)) →
      (((const_iterator.operator_add_assign file k it).2.m_parent = none ∧
        (const_iterator.operator_add_assign file k it).2.m_current_frame = SIZE_MAX) ∨
      ((const_iterator.operator_add_assign file k it).2.m_parent = some r ∧
        (const_iterator.operator_add_assign file k it).2.m_current_frame ≤ r.m_nframes)) := by
  intro k
  induction k with
  | zero => intro it h; simpa [const_iterator.operator_add_assign] using h
  | succ k ih =>
    intro it h
    have hstep := operator_inc_invariant file r it h
    rw [const_iterator.operator_add_assign]
    rcases hinc : const_iterator.operator_inc file it with ⟨o, it1⟩
    rw [hinc] at hstep
    cases o with
    | returned v => exact ih it1 hstep
    | raised e => exact hstep

theorem reachable_all_invariant (file : VideoFile) (r : VideoReader) (it : const_iterator)
    (h : ReachableAll file r it) :
    (it.m_parent = none ∧ it.m_current_frame = SIZE_MAX) ∨
    (it.m_parent = some r ∧ it.m_current_frame ≤ r.m_nframes) := by
  induction h with
  | default => left; exact ⟨rfl, rfl⟩
  | ofParent => exact init_invariant file r _ rfl
  | copy other res _ hres ih =>
    rcases ih with ⟨hp, -⟩ | ⟨hp, -⟩
    · simp [const_iterator.copy, hp] at hres
    · simp only [const_iterator.copy, hp, Option.some.injEq] at hres
      rw [← hres]
      exact operator_add_assign_invariant file r _ _ (init_invariant file r _ rfl)
  | assign this other res _ _ hres _ ih2 =>
    rcases ih2 with ⟨hp, -⟩ | ⟨hp, -⟩
    · simp [const_iterator.assign, hp] at hres
    · simp only [const_iterator.assign, hp, Option.some.injEq] at hres
      rw [← hres]
      exact operator_add_assign_invariant file r _ _ (init_invariant file r _ rfl)
  | read it data t mem _ ih =>
    rcases read_step file it data t mem with ⟨h1, h2, -⟩ | ⟨h1, h2⟩
    · exact Or.inl ⟨h1, h2⟩
    · rcases ih with ⟨hp, hcur⟩ | ⟨hp, hcur⟩
      · left
        refine ⟨h1.trans hp, ?_⟩
        rcases h2 with h2 | ⟨p, hp2, -, -⟩
        · exact h2.trans hcur
        · rw [hp] at hp2; exact absurd hp2 (by simp)
      · right
        refine ⟨h1.trans hp, ?_⟩
        rcases h2 with h2 | ⟨p, hp2, hlt, h2⟩
        · omega
        · rw [hp] at hp2
          cases hp2
          rw [h2]
          exact le_trans (Nat.mod_le _ _) (by omega)
  | advance it _ ih => exact operator_inc_invariant file r it ih
  | add_assign k it _ ih => exact operator_add_assign_invariant file r k it ih
  | reset it _ _ => left; exact ⟨rfl, rfl⟩

/-- C27: assuming frame_count < SIZE_MAX, in every state reachable from the
constructors through read, advance, `+=`, reset, and copies and assignments
whose behaviour is defined, the parent pointer is null if and only if the
cursor equals SIZE_MAX, and whenever the parent is non-null it is the reader
and 0 <= cursor <= frame_count; and a `read` or an advance made in such a
state that leaves the iterator with a parent does not decrease the cursor. -/
theorem representation_invariant (file : VideoFile) (r : VideoReader) (it : const_iterator)
    (hn : r.m_nframes < SIZE_MAX) (h : ReachableAll file r it) :
    (it.m_parent = none ↔ it.m_current_frame = SIZE_MAX) ∧
    (∀ p, it.m_parent = some p → p = r ∧ 0 ≤ it.m_current_frame ∧
      it.m_current_frame ≤ p.m_nframes) ∧
    (∀ (data : interface) (t : Bool) (mem : Memory),
      (const_iterator.read file it data t mem).it.m_parent ≠ none →
      it.m_current_frame ≤ (const_iterator.read file it data t mem).it.m_current_frame) ∧
    ((const_iterator.operator_inc file it).2.m_parent ≠ none →
      it.m_current_frame ≤ (const_iterator.operator_inc file it).2.m_current_frame) := by
  have hinv := reachable_all_invariant file r it h
  refine ⟨?_, ?_, ?_, ?_⟩
  · rcases hinv with ⟨hp, hcur⟩ | ⟨hp, hcur⟩
    · simp [hp, hcur]
    · constructor
      · intro hnone; rw [hp] at hnone; exact absurd hnone (by simp)
      · intro hmax; omega
  · intro p hp
    rcases hinv with ⟨hp2, -⟩ | ⟨hp2, hcur⟩
    · rw [hp2] at hp; exact absurd hp (by simp)
    · rw [hp2] at hp
      cases hp
      exact ⟨rfl, Nat.zero_le _, hcur⟩
  · intro data t mem hact
    rcases read_step file it data t mem with ⟨h1, -, -⟩ | ⟨-, h2⟩
    · exact absurd h1 hact
    · rcases h2 with h2 | ⟨p, hp2, hlt, h2⟩
      · omega
      · rcases hinv with ⟨hp, -⟩ | ⟨hp, hcur⟩
        · rw [hp] at hp2; exact absurd hp2 (by simp)
        · rw [hp] at hp2
          cases hp2
          rw [h2, Nat.mod_eq_of_lt (by omega)]
          omega
  · intro hact
    rcases operator_inc_step file it with ⟨h1, -, -⟩ | ⟨-, h2⟩
    · exact absurd h1 hact
    · rcases h2 with h2 | ⟨p, hp2, hlt, h2⟩
      · omega
      · rcases hinv with ⟨hp, -⟩ | ⟨hp, hcur⟩
        · rw [hp] at hp2; exact absurd hp2 (by simp)
        · rw [hp] at hp2
          cases hp2
          rw [h2, Nat.mod_eq_of_lt (by omega)]
          omega

/-- Witness of C27: the iterator of the healthy two-frame 1x1 video after one
`read`, a state with its parent and cursor 1. -/
theorem representation_invariant_witness :
    (reader_1x1 2).m_nframes < SIZE_MAX ∧
    ((const_iterator.read healthy_file (const_iterator.ofParent healthy_file (reader_1x1 2))
        frame_buffer true zero_memory).it.m_parent = none ↔
      (const_iterator.read healthy_file (const_iterator.ofParent healthy_file (reader_1x1 2))
        frame_buffer true zero_memory).it.m_current_frame = SIZE_MAX) :=
  ⟨by decide,
    (representation_invariant healthy_file (reader_1x1 2) _ (by decide)
      (ReachableAll.read _ frame_buffer true zero_memory ReachableAll.ofParent)).1⟩

/-! ## Where the load loop writes -/

end bob.io

namespace Torch.core.array

/-- C28: `unstringize (stringize t) = t` for each of the fifteen known element
types (and for `t_unknown` too); `stringize` of the remaining value is
"unknown"; `unstringize` of every string that is not one of the fifteen names
is `t_unknown`; the fifteen names are the images of the fifteen known types
and are pairwise distinct. -/
theorem unstringize_stringize :
    (∀ t : bob.io.ElementType, unstringize (stringize t) = t) ∧
    (∀ t : bob.io.ElementType, t ≠ bob.io.ElementType.t_unknown → stringize t ∈ known_names) ∧
    stringize bob.io.ElementType.t_unknown = "unknown" ∧
    (∀ s : String, s ∉ known_names → unstringize s = bob.io.ElementType.t_unknown) ∧
    known_names.length = 15 ∧
    known_names.Nodup := by
  refine ⟨?_, ?_, rfl, ?_, rfl, by decide⟩
  · intro t
    cases t <;> decide
  · intro t ht
    cases t <;> first | exact absurd rfl ht | decide
  · intro s hs
    simp only [known_names, List.mem_cons, List.mem_singleton, not_or, List.not_mem_nil,
      or_false] at hs
    simp [unstringize, hs]

end Torch.core.array

namespace Torch

/-- C29 (evaluation at the failing input): a Float tensor with four
dimensions. None of the three blocks of `checkInput` applies, so the function
reaches its last statement and returns true, in forward and in inverse mode
and whatever `nexthigher` computes. -/
theorem checkInput_accepts_four_dimensions :
    tensor_4d.nDimension = 4 ∧
    ∀ (nexthigher : Nat → Nat) (inverse : Bool),
      spFFT_oourafft.checkInput nexthigher inverse tensor_4d = true := by
  refine ⟨rfl, ?_⟩
  intro nh inverse
  simp [spFFT_oourafft.checkInput, spFFT_oourafft.check_1d, spFFT_oourafft.check_2d,
    spFFT_oourafft.check_3d, tensor_4d]

end Torch

namespace bob.ip

/-- C30 (evaluation at the failing input): with the average bit added (and
neither uniform nor rotation invariant) and centre == cmp_point == 1, the
neighbourhood whose neighbour 0 alone passes the comparison and the
neighbourhood whose neighbours all fail it get the same code 0: the second
shift pushes the bit of neighbour 0 out of the `uint16_t`. The claimed value
for the first, 2 * 32768 + 0 = 65536, does not fit 16 bits. -/
theorem average_bit_drops_first_neighbour :
    decide (neighbours_first_set 0 ≥ 1) ≠ decide (neighbours_none_set 0 ≥ 1) ∧
    LBP16R.processNoCheck_lbp neighbours_first_set 1 1 true false false = 0 ∧
    LBP16R.processNoCheck_lbp neighbours_none_set 1 1 true false false = 0 ∧
    LBP16R.processNoCheck_lbp neighbours_first_set 1 1 false false false = 32768 ∧
    2 * spec_lbp neighbours_first_set 1 + 0 = 65536 := by
  decide

end bob.ip

namespace Torch.ip

/-! ## Cropping -/

theorem int_add_eq_some (a b s : Int) (h : int_add a b = some s) :
    s = a + b ∧ INT_MIN ≤ a + b ∧ a + b ≤ INT_MAX := by
  unfold int_add at h
  split_ifs at h with hr
  simp only [Option.some.injEq] at h
  exact ⟨h.symm, hr.1, hr.2⟩

theorem int_add_of_range (a b : Int) (h1 : INT_MIN ≤ a + b) (h2 : a + b ≤ INT_MAX) :
    int_add a b = some (a + b) := by
  simp [int_add, h1, h2]

theorem out_of_boundary_eq_some (src : Array2D) (x y w h : Int) (o : Bool)
    (ho : out_of_boundary src x y w h = some o) :
    (o = true ↔ (x < 0 ∨ y < 0 ∨ w < 0 ∨ h < 0 ∨ x + w > src.extent1 ∨ y + h > src.extent0)) := by
  unfold out_of_boundary at ho
  by_cases hx : x < 0
  · simp only [hx, if_true, Option.some.injEq] at ho
    simp [← ho, hx]
  by_cases hy : y < 0
  · simp only [hx, hy, if_true, if_false, Option.some.injEq] at ho
    simp [← ho, hy]
  by_cases hw : w < 0
  · simp only [hx, hy, hw, if_true, if_false, Option.some.injEq] at ho
    simp [← ho, hw]
  by_cases hh : h < 0
  · simp only [hx, hy, hw, hh, if_true, if_false, Option.some.injEq] at ho
    simp [← ho, hh]
  simp only [hx, hy, hw, hh, if_false] at ho
  cases hsx : int_add x w with
  | none => simp [hsx] at ho
  | some sx =>
    obtain ⟨e1, -, -⟩ := int_add_eq_some x w sx hsx
    simp only [hsx, Option.some_bind] at ho
    by_cases hgx : sx > src.extent1
    · simp only [hgx, if_true, Option.some.injEq] at ho
      rw [e1] at hgx
      simp [← ho, hgx]
    · simp only [hgx, if_false] at ho
      cases hsy : int_add y h with
      | none => simp [hsy] at ho
      | some sy =>
        obtain ⟨e2, -, -⟩ := int_add_eq_some y h sy hsy
        simp only [hsy, Option.some_bind, Option.some.injEq] at ho
        rw [e1] at hgx
        rw [e2] at ho
        rw [← ho]
        simp only [decide_eq_true_eq]
        constructor
        · intro hg; exact Or.inr (Or.inr (Or.inr (Or.inr (Or.inr hg))))
        · intro hd
          rcases hd with h1 | h1 | h1 | h1 | h1 | h1
          · exact absurd h1 hx
          · exact absurd h1 hy
          · exact absurd h1 hw
          · exact absurd h1 hh
          · exact absurd h1 hgx
          · exact h1

/-- C22: whenever the behaviour of the 2D `crop` is defined (no signed overflow
in the sums it evaluates, no read outside the source), it throws
`ParamOutOfBoundaryError` if and only if `allow_out` is false and at least one
of crop_x<0, crop_y<0, crop_w<0, crop_h<0, crop_x+crop_w>src.extent(1),
crop_y+crop_h>src.extent(0) holds; with `allow_out` true it throws nothing;
it never throws the generic `Exception` of the last branch of its check; and
with `allow_out` false, one of the six conditions true and the two sums within
`int`, its behaviour is defined and it throws `ParamOutOfBoundaryError`. -/
theorem crop_raises_iff (src : Array2D) (crop_x crop_y crop_w crop_h : Int)
    (allow_out zero_out : Bool) :
    (∀ out : Cropped, crop src crop_x crop_y crop_w crop_h allow_out zero_out = some out →
      ((∃ name is_upper value limit, out = Cropped.raised
          (IpException.ParamOutOfBoundaryError name is_upper value limit)) ↔
        (allow_out = false ∧
          (crop_x < 0 ∨ crop_y < 0 ∨ crop_w < 0 ∨ crop_h < 0 ∨
            crop_x + crop_w > src.extent1 ∨ crop_y + crop_h > src.extent0))) ∧
      (allow_out = true → ∃ dst, out = Cropped.done dst) ∧
      out ≠ Cropped.raised IpException.Exception) ∧
    (allow_out = false →
      (crop_x < 0 ∨ crop_y < 0 ∨ crop_w < 0 ∨ crop_h < 0 ∨
        crop_x + crop_w > src.extent1 ∨ crop_y + crop_h > src.extent0) →
      crop_x + crop_w ≤ INT_MAX → crop_y + crop_h ≤ INT_MAX →
      ∃ name is_upper value limit,
        crop src crop_x crop_y crop_w crop_h allow_out zero_out =
          some (Cropped.raised
            (IpException.ParamOutOfBoundaryError name is_upper value limit))) := by
  constructor
  · intro out hdef
    unfold crop at hdef
    cases ho : out_of_boundary src crop_x crop_y crop_w crop_h with
    | none => simp [ho] at hdef
    | some o =>
      have hiff := out_of_boundary_eq_some src _ _ _ _ o ho
      simp only [ho, Option.some_bind] at hdef
      by_cases hc : (o && !allow_out) = true
      · simp only [hc, if_true] at hdef
        simp only [Bool.and_eq_true, Bool.not_eq_true'] at hc
        obtain ⟨hot, hallow⟩ := hc
        have hdisj := hiff.mp hot
        have hP : ∃ name is_upper value limit, out = Cropped.raised
            (IpException.ParamOutOfBoundaryError name is_upper value limit) := by
          by_cases hx : crop_x < 0
          · simp only [hx, if_true, Option.some.injEq] at hdef
            exact ⟨_, _, _, _, hdef.symm⟩
          by_cases hy : crop_y < 0
          · simp only [hx, hy, if_true, if_false, Option.some.injEq] at hdef
            exact ⟨_, _, _, _, hdef.symm⟩
          by_cases hw : crop_w < 0
          · simp only [hx, hy, hw, if_true, if_false, Option.some.injEq] at hdef
            exact ⟨_, _, _, _, hdef.symm⟩
          by_cases hh : crop_h < 0
          · simp only [hx, hy, hw, hh, if_true, if_false, Option.some.injEq] at hdef
            exact ⟨_, _, _, _, hdef.symm⟩
          simp only [hx, hy, hw, hh, if_false] at hdef
          cases hsx : int_add crop_x crop_w with
          | none => simp [hsx] at hdef
          | some sx =>
            obtain ⟨e1, -, -⟩ := int_add_eq_some _ _ sx hsx
            simp only [hsx, Option.some_bind] at hdef
            by_cases hgx : sx > src.extent1
            · simp only [hgx, if_true, Option.some.injEq] at hdef
              exact ⟨_, _, _, _, hdef.symm⟩
            · simp only [hgx, if_false] at hdef
              cases hsy : int_add crop_y crop_h with
              | none => simp [hsy] at hdef
              | some sy =>
                obtain ⟨e2, -, -⟩ := int_add_eq_some _ _ sy hsy
                simp only [hsy, Option.some_bind] at hdef
                by_cases hgy : sy > src.extent0
                · simp only [hgy, if_true, Option.some.injEq] at hdef
                  exact ⟨_, _, _, _, hdef.symm⟩
                · exfalso
                  rw [e1] at hgx
                  rw [e2] at hgy
                  rcases hdisj with h1 | h1 | h1 | h1 | h1 | h1
                  · exact hx h1
                  · exact hy h1
                  · exact hw h1
                  · exact hh h1
                  · exact hgx h1
                  · exact hgy h1
        obtain ⟨name, up, v, lim, hout⟩ := hP
        refine ⟨⟨fun _ => ⟨hallow, hdisj⟩, fun _ => ⟨name, up, v, lim, hout⟩⟩, ?_, ?_⟩
        · intro ht; rw [hallow] at ht; exact absurd ht (by simp)
        · rw [hout]; simp
      · simp only [hc, Bool.false_eq_true, if_false, Option.map_eq_some'] at hdef
        obtain ⟨dst, -, hdst⟩ := hdef
        subst hdst
        refine ⟨⟨fun ⟨_, _, _, _, h⟩ => by simp at h, fun ⟨hallow, hdisj⟩ => ?_⟩,
          fun _ => ⟨dst, rfl⟩, by simp⟩
        exfalso
        apply hc
        simp [hiff.mpr hdisj, hallow]
  · intro hallow hdisj hsx hsy
    have hmin : INT_MIN = -2147483648 := rfl
    unfold crop out_of_boundary
    by_cases hx : crop_x < 0
    · exact ⟨"crop_x", false, crop_x, 0, by simp [hx, hallow]⟩
    by_cases hy : crop_y < 0
    · exact ⟨"crop_y", false, crop_y, 0, by simp [hx, hy, hallow]⟩
    by_cases hw : crop_w < 0
    · exact ⟨"crop_w", false, crop_w, 0, by simp [hx, hy, hw, hallow]⟩
    by_cases hh : crop_h < 0
    · exact ⟨"crop_h", false, crop_h, 0, by simp [hx, hy, hw, hh, hallow]⟩
    have ax := int_add_of_range crop_x crop_w (by omega) hsx
    have ay := int_add_of_range crop_y crop_h (by omega) hsy
    by_cases hgx : crop_x + crop_w > src.extent1
    · exact ⟨"crop_x+crop_w", true, crop_x + crop_w, src.extent1,
        by simp [hx, hy, hw, hh, hallow, ax, hgx]⟩
    · have hgy : crop_y + crop_h > src.extent0 := by
        rcases hdisj with h1 | h1 | h1 | h1 | h1 | h1
        · exact absurd h1 hx
        · exact absurd h1 hy
        · exact absurd h1 hw
        · exact absurd h1 hh
        · exact absurd h1 hgx
        · exact h1
      exact ⟨"crop_y+crop_h", true, crop_y + crop_h, src.extent0,
        by simp [hx, hy, hw, hh, hallow, ax, ay, hgx, hgy]⟩

theorem collect_map_some {α β : Type} (f : β → Option α) (g : β → α) :
    ∀ l : List β, (∀ i ∈ l, f i = some (g i)) → collect (l.map f) = some (l.map g) := by
  intro l
  induction l with
  | nil => intro _; rfl
  | cons b l ih =>
    intro h
    have hb := h b (List.mem_cons_self _ _)
    have hl := ih (fun i hi => h i (List.mem_cons_of_mem _ hi))
    simp [collect, hb, hl]

theorem keepInRange_eq_clamp (v m : Int) (hm : 0 ≤ m) :
    detail.keepInRange v 0 m = max 0 (min v m) := by
  unfold detail.keepInRange
  by_cases h1 : v < 0
  · simp only [h1, if_true]
    omega
  · by_cases h2 : v > m
    · simp only [h1, h2, if_true, if_false]
      omega
    · simp only [h1, h2, if_false]
      omega

theorem crop_cell_eq_spec (src : Array2D) (crop_x crop_y : Int) (zero_out : Bool) (y x : Int)
    (hz0 : src.lbound0 = 0) (hz1 : src.lbound1 = 0)
    (hH : 1 ≤ src.extent0) (hW : 1 ≤ src.extent1)
    (hHmax : src.extent0 ≤ INT_MAX) (hWmax : src.extent1 ≤ INT_MAX)
    (hy1 : INT_MIN ≤ y + crop_y) (hy2 : y + crop_y ≤ INT_MAX)
    (hx1 : INT_MIN ≤ x + crop_x) (hx2 : x + crop_x ≤ INT_MAX) :
    detail.crop_cell src crop_x zero_out (y + crop_y)
        (decide (y + crop_y < 0) || decide (y + crop_y ≥ src.extent0))
        (detail.keepInRange (y + crop_y) 0 (src.extent0 - 1)) x =
      some (spec_cell src crop_x crop_y zero_out y x) := by
  have hmax : INT_MAX = 2147483647 := rfl
  have hmin : INT_MIN = -2147483648 := rfl
  have ax := int_add_of_range x crop_x hx1 hx2
  have ae : int_add src.extent1 (-1) = some (src.extent1 - 1) :=
    int_add_of_range src.extent1 (-1) (by omega) (by omega)
  have ky := keepInRange_eq_clamp (y + crop_y) (src.extent0 - 1) (by omega)
  have kx := keepInRange_eq_clamp (x + crop_x) (src.extent1 - 1) (by omega)
  unfold detail.crop_cell spec_cell
  simp only [ax, Option.some_bind, hz0, hz1]
  by_cases hin : 0 ≤ y + crop_y ∧ y + crop_y < src.extent0 ∧ 0 ≤ x + crop_x ∧
      x + crop_x < src.extent1
  · obtain ⟨i1, i2, i3, i4⟩ := hin
    have c1 : ¬ (y + crop_y < 0) := by omega
    have c2 : ¬ (y + crop_y ≥ src.extent0) := by omega
    have c3 : ¬ (x + crop_x < 0) := by omega
    have c4 : ¬ (x + crop_x ≥ src.extent1) := by omega
    have ay0 := int_add_of_range (y + crop_y) 0 (by omega) (by omega)
    have ax0 := int_add_of_range (x + crop_x) 0 (by omega) (by omega)
    simp only [Int.add_zero] at ay0 ax0
    simp [c1, c2, c3, c4, i1, i2, i3, i4, ay0, ax0, Array2D.get, hz0, hz1]
  · have hcond : (decide (y + crop_y < 0) || decide (y + crop_y ≥ src.extent0) ||
        decide (x + crop_x < 0) || decide (x + crop_x ≥ src.extent1)) = true := by
      simp only [Bool.or_eq_true, decide_eq_true_eq]
      by_contra hcon
      apply hin
      omega
    simp only [hcond, if_true, ae, Option.some_bind, hin, if_false]
    cases zero_out with
    | true => simp
    | false =>
      simp only [Bool.false_eq_true, if_false]
      rw [ky, kx]
      have b1 : 0 ≤ max 0 (min (y + crop_y) (src.extent0 - 1)) := by omega
      have b2 : max 0 (min (y + crop_y) (src.extent0 - 1)) < src.extent0 := by omega
      have b3 : 0 ≤ max 0 (min (x + crop_x) (src.extent1 - 1)) := by omega
      have b4 : max 0 (min (x + crop_x) (src.extent1 - 1)) < src.extent1 := by omega
      have ay0 := int_add_of_range (max 0 (min (y + crop_y) (src.extent0 - 1))) 0
        (by omega) (by omega)
      have ax0 := int_add_of_range (max 0 (min (x + crop_x) (src.extent1 - 1))) 0
        (by omega) (by omega)
      simp only [Int.add_zero] at ay0 ax0
      simp [ay0, ax0, Array2D.get, hz0, hz1, b1, b2, b3, b4]

/-- C23: for a zero-based source with at least one row and one column, crop_w
and crop_h >= 0, and offsets for which y + crop_y and x + crop_x stay within
`int` over the crop area, `cropNoCheck2D` has defined behaviour (every source
index it reads is within bounds) and assigns crop_h rows of crop_w values:
for every 0 <= y < crop_h and 0 <= x < crop_w, `dst(y, x)` is the source pixel
(y + crop_y, x + crop_x) when that position lies inside the source, otherwise
0 if `zero_out`, else the source pixel at (clamp(y + crop_y, 0, H - 1),
clamp(x + crop_x, 0, W - 1)). -/
theorem cropNoCheck2D_values (src : Array2D) (crop_x crop_y crop_w crop_h : Int)
    (zero_out : Bool)
    (hz0 : src.lbound0 = 0) (hz1 : src.lbound1 = 0)
    (hH : 1 ≤ src.extent0) (hW : 1 ≤ src.extent1)
    (hHmax : src.extent0 ≤ INT_MAX) (hWmax : src.extent1 ≤ INT_MAX)
    (hw : 0 ≤ crop_w) (hh : 0 ≤ crop_h)
    (hx : INT_MIN ≤ crop_x) (hy : INT_MIN ≤ crop_y)
    (hxo : crop_x + crop_w ≤ INT_MAX + 1) (hyo : crop_y + crop_h ≤ INT_MAX + 1) :
    ∃ dst : List (List Int),
      detail.cropNoCheck2D src crop_x crop_y crop_w crop_h zero_out = some dst ∧
      (dst.length : Int) = crop_h ∧
      ∀ y x : Nat, (y : Int) < crop_h → (x : Int) < crop_w →
        ∃ row, dst[y]? = some row ∧ (row.length : Int) = crop_w ∧
          row[x]? = some
            (if 0 ≤ (y : Int) + crop_y ∧ (y : Int) + crop_y < src.extent0 ∧
                0 ≤ (x : Int) + crop_x ∧ (x : Int) + crop_x < src.extent1 then
              src.data ((y : Int) + crop_y) ((x : Int) + crop_x)
            else if zero_out then 0
            else src.data (max 0 (min ((y : Int) + crop_y) (src.extent0 - 1)))
              (max 0 (min ((x : Int) + crop_x) (src.extent1 - 1)))) := by
  have hmax : INT_MAX = 2147483647 := rfl
  have hmin : INT_MIN = -2147483648 := rfl
  have hrow : ∀ y ∈ List.range crop_h.toNat,
      ((int_add (y : Int) crop_y).bind (fun yc =>
        (int_add src.extent0 (-1)).bind (fun e0 =>
          collect ((List.range crop_w.toNat).map (fun (x : Nat) =>
            detail.crop_cell src crop_x zero_out yc
              (decide (yc < 0) || decide (yc ≥ src.extent0))
              (detail.keepInRange yc 0 e0) (x : Int)))))) =
      some ((List.range crop_w.toNat).map
        (fun x : Nat => spec_cell src crop_x crop_y zero_out (y : Int) (x : Int))) := by
    intro y hyr
    have hy3 : (y : Int) < crop_h := by
      have := List.mem_range.mp hyr
      omega
    have ay := int_add_of_range (y : Int) crop_y (by omega) (by omega)
    have ae : int_add src.extent0 (-1) = some (src.extent0 - 1) :=
      int_add_of_range src.extent0 (-1) (by omega) (by omega)
    simp only [ay, ae, Option.some_bind]
    apply collect_map_some
    intro x hxr
    have hx3 : (x : Int) < crop_w := by
      have := List.mem_range.mp hxr
      omega
    exact crop_cell_eq_spec src crop_x crop_y zero_out y x hz0 hz1 hH hW hHmax hWmax
      (by omega) (by omega) (by omega) (by omega)
  refine ⟨(List.range crop_h.toNat).map (fun y : Nat =>
    (List.range crop_w.toNat).map
      (fun x : Nat => spec_cell src crop_x crop_y zero_out (y : Int) (x : Int))), ?_, ?_, ?_⟩
  · unfold detail.cropNoCheck2D
    exact collect_map_some _ _ _ hrow
  · simp only [List.length_map, List.length_range]
    omega
  · intro y x hy3 hx3
    have hyn : y < crop_h.toNat := by omega
    have hxn : x < crop_w.toNat := by omega
    refine ⟨(List.range crop_w.toNat).map
      (fun x : Nat => spec_cell src crop_x crop_y zero_out (y : Int) (x : Int)), ?_, ?_, ?_⟩
    · simp [List.getElem?_map, List.getElem?_range, hyn]
    · simp only [List.length_map, List.length_range]
      omega
    · simp [List.getElem?_map, List.getElem?_range, hxn, spec_cell]

/-- Witness of C23: the 2 x 3 image cropped from (-1, -1) over 4 rows and 5
columns, the border filled with the closest pixel. -/
theorem cropNoCheck2D_values_witness :
    image_2x3.lbound0 = 0 ∧ image_2x3.lbound1 = 0 ∧
    1 ≤ image_2x3.extent0 ∧ 1 ≤ image_2x3.extent1 ∧
    detail.cropNoCheck2D image_2x3 (-1) (-1) 5 4 false =
      some [[0, 0, 1, 2, 2], [0, 0, 1, 2, 2], [10, 10, 11, 12, 12], [10, 10, 11, 12, 12]] ∧
    ∃ dst : List (List Int),
      detail.cropNoCheck2D image_2x3 (-1) (-1) 5 4 false = some dst ∧
      (dst.length : Int) = 4 :=
  ⟨rfl, rfl, by decide, by decide, by decide,
    (cropNoCheck2D_values image_2x3 (-1) (-1) 5 4 false rfl rfl (by decide) (by decide)
      (by decide) (by decide) (by decide) (by decide) (by decide) (by decide) (by decide)
      (by decide)).imp (fun _ h => ⟨h.1, h.2.1⟩)⟩

/-- Witness of C22: the 2 x 3 image cropped from (1, 0) over 2 rows and 3
columns, which reaches one column past the source, with `allow_out` false. -/
theorem crop_raises_iff_witness :
    crop image_2x3 1 0 3 2 false false =
      some (Cropped.raised (IpException.ParamOutOfBoundaryError "crop_x+crop_w" true 4 3)) ∧
    ((∃ name is_upper value limit,
        Cropped.raised (IpException.ParamOutOfBoundaryError "crop_x+crop_w" true 4 3) =
          Cropped.raised (IpException.ParamOutOfBoundaryError name is_upper value limit)) ↔
      (false = false ∧
        ((1 : Int) < 0 ∨ (0 : Int) < 0 ∨ (3 : Int) < 0 ∨ (2 : Int) < 0 ∨
          (1 : Int) + 3 > image_2x3.extent1 ∨ (0 : Int) + 2 > image_2x3.extent0))) :=
  ⟨by decide,
    ((crop_raises_iff image_2x3 1 0 3 2 false false).1 _ (by decide)).1⟩

end Torch.ip
